import Mathlib

/-!
Shallow embedding of the WebScreen runtime supervisor and its supporting
subsystems, together with proofs of the specification's testable properties.

Each definition is translated from the repository's C++ sources; the file
pointer is given above each group of definitions.  Machine integers are
modelled as `Nat`/`Int`; `unsigned long` (32-bit on the target) arithmetic
is made explicit with `% 2^32` where the source relies on wraparound.
Nullable pointers are modelled as `Option`.
-/

namespace WebScreen

/-! ### Object Handle Registry

From `src/webscreen/lvgl_elk.h`, lines 797-816.

The registry is `static std::vector<lv_obj_t*> g_objects` together with
`store_lv_obj`, `get_lv_obj`, `release_lv_obj` (all slot accesses are guarded
by a single mutex `g_obj_mtx`; the sequential semantics below is the
interleaving-atomic semantics of those three critical sections).

A native object reference (`lv_obj_t*` that is not `nullptr`) is abstracted
as `Obj := Nat`; a slot holds `Option Obj`, with `none` encoding the
`nullptr` sentinel used by the vector for a free slot.  `store_lv_obj` is
applied by the firmware to freshly created (non-null) objects.
-/

/-- Abstract non-null native object reference (`lv_obj_t*` in the source). -/
abbrev Obj : Type := Nat

/-- The registry vector `g_objects`: a slot is `none` when it holds the
`nullptr` free-slot sentinel. -/
def ObjTable : Type := List (Option Obj)

/-- Index of the first free (`nullptr`) slot, mirroring the scan loop in
`store_lv_obj`. -/
def firstFree : List (Option Obj) → Option Nat
  | [] => none
  | none :: _ => some 0
  | some _ :: rest => (firstFree rest).map (· + 1)

/-- `store_lv_obj`: reuse the first free slot, otherwise `push_back`; returns
the handle (the slot index) together with the updated table. -/
def store_lv_obj (t : List (Option Obj)) (o : Obj) : Nat × List (Option Obj) :=
  match firstFree t with
  | some i => (i, t.set i (some o))
  | none => (t.length, t ++ [some o])

/-- `get_lv_obj`: bounds-checked lookup; out-of-range handles (negative or
`≥ g_objects.size()`) yield `nullptr`. -/
def get_lv_obj (t : List (Option Obj)) (h : Int) : Option Obj :=
  if 0 ≤ h ∧ h < (t.length : Int) then (t.getD h.toNat none) else none

/-- `release_lv_obj`: clear an in-range slot back to the `nullptr` sentinel;
out-of-range handles are ignored. -/
def release_lv_obj (t : List (Option Obj)) (h : Int) : List (Option Obj) :=
  if 0 ≤ h ∧ h < (t.length : Int) then t.set h.toNat none else t

/-- One registry call made by the script bridge. -/
inductive RegOp where
  | store (o : Obj)
  | release (h : Int)

/-- Run a sequence of registry calls against a table. -/
def regRun : List RegOp → List (Option Obj) → List (Option Obj)
  | [], t => t
  | RegOp.store o :: ops, t => regRun ops (store_lv_obj t o).2
  | RegOp.release h :: ops, t => regRun ops (release_lv_obj t h)

/-- Specification-side bookkeeping: `regPending ops t P h` is `true` exactly
when, after running `ops` from table `t`, the most recent call involving
handle `h` was a `store` that returned `h` (starting from the assignment
`P`).  This is the spec's notion "`h` was returned by a `store` not yet
followed by a matching `release`". -/
def regPending : List RegOp → List (Option Obj) → (Int → Bool) → Int → Bool
  | [], _, P => P
  | RegOp.store o :: ops, t, P =>
      regPending ops (store_lv_obj t o).2
        (fun h => if h = ((store_lv_obj t o).1 : Int) then true else P h)
  | RegOp.release h0 :: ops, t, P =>
      regPending ops (release_lv_obj t h0) (fun h => if h = h0 then false else P h)

theorem firstFree_spec {t : List (Option Obj)} {i : Nat} (hf : firstFree t = some i) :
    i < t.length ∧ t.getD i none = none := by
  induction t generalizing i with
  | nil => simp [firstFree] at hf
  | cons a rest ih =>
    cases a with
    | none =>
      simp [firstFree] at hf
      subst hf
      simp
    | some o =>
      simp [firstFree, Option.map_eq_some'] at hf
      obtain ⟨j, hj, rfl⟩ := hf
      obtain ⟨h1, h2⟩ := ih hj
      constructor
      · simpa using h1
      · simpa using h2

theorem firstFree_none {t : List (Option Obj)} (hf : firstFree t = none) :
    ∀ j, j < t.length → t.getD j none ≠ none := by
  induction t with
  | nil => intro j hj; simp at hj
  | cons a rest ih =>
    cases a with
    | none => simp [firstFree] at hf
    | some o =>
      intro j hj
      cases j with
      | zero => simp
      | succ k =>
        simp [firstFree] at hf
        exact ih hf k (by simpa using hj)

/-- Effect of one `store_lv_obj` on `get_lv_obj`, expressed through the
returned handle. -/
theorem get_after_store (t : List (Option Obj)) (o : Obj) (h : Int) :
    (get_lv_obj (store_lv_obj t o).2 h).isSome =
      (if h = ((store_lv_obj t o).1 : Int) then true else (get_lv_obj t h).isSome) := by
  unfold store_lv_obj
  cases hf : firstFree t with
  | some i =>
    obtain ⟨hi, _⟩ := firstFree_spec hf
    simp only
    by_cases he : h = (i : Int)
    · subst he
      simp only [if_pos rfl, get_lv_obj]
      rw [if_pos]
      · have : (i : Int).toNat = i := Int.toNat_natCast i
        rw [this, List.getD_eq_getElem?_getD, List.getElem?_set_self (by simpa using hi)]
        simp
      · constructor
        · exact Int.natCast_nonneg i
        · simpa using (by exact_mod_cast hi : (i : Int) < (t.length : Int))
    · rw [if_neg he]
      unfold get_lv_obj
      rw [List.length_set]
      by_cases hb : 0 ≤ h ∧ h < (t.length : Int)
      · rw [if_pos hb, if_pos hb]
        have hne : h.toNat ≠ i := by
          intro hc
          apply he
          rw [← hc, Int.toNat_of_nonneg hb.1]
        rw [List.getD_eq_getElem?_getD, List.getD_eq_getElem?_getD,
          List.getElem?_set_ne (fun hc => hne hc.symm)]
      · rw [if_neg hb, if_neg hb]
  | none =>
    simp only
    by_cases he : h = (t.length : Int)
    · subst he
      simp only [if_pos rfl, get_lv_obj]
      rw [if_pos]
      · rw [Int.toNat_natCast, List.getD_eq_getElem?_getD]
        simp
      · constructor
        · exact Int.natCast_nonneg _
        · simp
    · rw [if_neg he]
      unfold get_lv_obj
      rw [List.length_append]
      by_cases hb : 0 ≤ h ∧ h < (t.length : Int)
      · have hb' : 0 ≤ h ∧ h < ((t.length + 1 : Nat) : Int) := by
          refine ⟨hb.1, ?_⟩
          have := hb.2
          push_cast
          omega
        rw [if_pos (by simpa using hb'), if_pos hb]
        have hlt : h.toNat < t.length := by
          have := hb.2
          omega
        rw [List.getD_eq_getElem?_getD, List.getD_eq_getElem?_getD,
          List.getElem?_append_left hlt]
      · have hb' : ¬(0 ≤ h ∧ h < ((t.length : Nat) + 1 : Int)) := by
          intro hc
          apply hb
          refine ⟨hc.1, ?_⟩
          rcases lt_or_ge h (t.length : Int) with hlt | hge
          · exact hlt
          · exfalso
            apply he
            have := hc.2
            omega
        rw [if_neg (by push_cast at hb' ⊢; exact hb'), if_neg hb]

/-- Effect of one `release_lv_obj` on `get_lv_obj`. -/
theorem get_after_release (t : List (Option Obj)) (h0 h : Int) :
    (get_lv_obj (release_lv_obj t h0) h).isSome =
      (if h = h0 then false else (get_lv_obj t h).isSome) := by
  unfold release_lv_obj
  by_cases hb0 : 0 ≤ h0 ∧ h0 < (t.length : Int)
  · rw [if_pos hb0]
    by_cases he : h = h0
    · subst he
      simp only [if_pos rfl, get_lv_obj, List.length_set]
      rw [if_pos hb0, List.getD_eq_getElem?_getD,
        List.getElem?_set_self (by omega)]
      simp
    · rw [if_neg he]
      unfold get_lv_obj
      rw [List.length_set]
      by_cases hb : 0 ≤ h ∧ h < (t.length : Int)
      · rw [if_pos hb, if_pos hb]
        have hne : h0.toNat ≠ h.toNat := by
          intro hc
          apply he
          have e1 := Int.toNat_of_nonneg hb.1
          have e2 := Int.toNat_of_nonneg hb0.1
          omega
        rw [List.getD_eq_getElem?_getD, List.getD_eq_getElem?_getD,
          List.getElem?_set_ne hne]
      · rw [if_neg hb, if_neg hb]
  · rw [if_neg hb0]
    by_cases he : h = h0
    · subst he
      rw [if_pos rfl]
      unfold get_lv_obj
      rw [if_neg hb0]
      simp
    · rw [if_neg he]

/-- The registry invariant: running any call sequence preserves the
correspondence between `get_lv_obj` liveness and the pending-store
bookkeeping. -/
theorem regRun_pending (ops : List RegOp) :
    ∀ (t : List (Option Obj)) (P : Int → Bool),
      (∀ h, (get_lv_obj t h).isSome = P h) →
      ∀ h, (get_lv_obj (regRun ops t) h).isSome = regPending ops t P h := by
  induction ops with
  | nil => intro t P hI h; exact hI h
  | cons op rest ih =>
    intro t P hI h
    cases op with
    | store o =>
      refine ih _ _ ?_ h
      intro h'
      rw [get_after_store]
      by_cases he : h' = ((store_lv_obj t o).1 : Int)
      · simp [he]
      · simp [he, hI h']
    | release h0 =>
      refine ih _ _ ?_ h
      intro h'
      rw [get_after_release]
      by_cases he : h' = h0
      · simp [he]
      · simp [he, hI h']

/-- C1: for any sequence of `store_lv_obj`/`release_lv_obj` calls on the
object handle registry (starting from the empty table), `get_lv_obj h`
returns a non-null object iff `h` was returned by a store not yet followed
by a matching release; releasing a handle and then immediately calling get
on it returns null; and get on any handle that is negative or not less than
the table size returns null rather than faulting. -/
theorem C1_handle_registry :
    (∀ (ops : List RegOp) (h : Int),
        (get_lv_obj (regRun ops []) h).isSome = regPending ops [] (fun _ => false) h)
    ∧ (∀ (t : List (Option Obj)) (h : Int), get_lv_obj (release_lv_obj t h) h = none)
    ∧ (∀ (t : List (Option Obj)) (h : Int),
        h < 0 ∨ (t.length : Int) ≤ h → get_lv_obj t h = none) := by
  refine ⟨?_, ?_, ?_⟩
  · intro ops h
    refine regRun_pending ops [] (fun _ => false) ?_ h
    intro h'
    simp [get_lv_obj]
  · intro t h
    have := get_after_release t h h
    rw [if_pos rfl] at this
    exact Option.not_isSome_iff_eq_none.mp (by simp [this])
  · intro t h hb
    unfold get_lv_obj
    rw [if_neg]
    intro hc
    rcases hb with hb | hb
    · omega
    · have := hc.2
      omega

/-- Witness for C1: a concrete run — store two objects, release handle 0,
then get: handle 0 is null, handle 1 is live; get at -1 and at the table
size is null. -/
theorem C1_handle_registry_witness :
    (get_lv_obj (regRun [RegOp.store 7, RegOp.store 9, RegOp.release 0] []) 0).isSome
        = regPending [RegOp.store 7, RegOp.store 9, RegOp.release 0] [] (fun _ => false) 0
    ∧ get_lv_obj (release_lv_obj [some 7, some 9] 0) 0 = none
    ∧ get_lv_obj [some 7, some 9] (-1) = none := by
  refine ⟨C1_handle_registry.1 _ 0, C1_handle_registry.2.1 _ 0,
    C1_handle_registry.2.2 [some 7, some 9] (-1) (Or.inl (by decide))⟩

example : (get_lv_obj (regRun [RegOp.store 7, RegOp.store 9, RegOp.release 0] []) 0) = none := by
  decide

example : (get_lv_obj (regRun [RegOp.store 7, RegOp.store 9, RegOp.release 0] []) 1) = some 9 := by
  decide

example : regPending [RegOp.store 7, RegOp.store 9, RegOp.release 0] [] (fun _ => false) 1 = true := by
  decide

example :
    (get_lv_obj (regRun [RegOp.store 7, RegOp.release 0, RegOp.store 5] []) 0) = some 5 := by
  decide

/-! ### Connectivity Supervisor

From `src/webscreen/lvgl_elk.h`: the retry timestamps (lines 42-43,
`static unsigned long lastMqttReconnectAttempt = 0;` /
`lastWiFiReconnectAttempt = 0;`) and `wifiMqttMaintainLoop` (lines
3092-3120).

`unsigned long` is 32-bit on the target; `millis()` is the real elapsed
milliseconds reduced mod `2^32`, and the guard
`now - last > 10000` is 32-bit wraparound subtraction.  An iteration's
environment records the wall-clock time and what the collaborators
(`WiFi.status()`, `g_mqttClient.connected()`, `doMqttConnect()`) report;
`doWiFiReconnect`'s result is not consulted by the loop's state updates.
The instrumented step returns, besides the new state, whether a wireless
(resp. messaging-bus) reconnection attempt was issued in this iteration.
-/

/-- 2^32: modulus of the target's `unsigned long`. -/
def UL_MOD : Nat := 4294967296

/-- Reduce a real millisecond count to `unsigned long`, as `millis()` does. -/
def toUL (n : Nat) : Nat := n % UL_MOD

/-- 32-bit wraparound subtraction `a - b` on values already reduced mod 2^32. -/
def ulSub (a b : Nat) : Nat := (a + UL_MOD - b) % UL_MOD

/-- The two retry timestamps of the maintenance loop. -/
structure NetState where
  lastWiFiReconnectAttempt : Nat
  lastMqttReconnectAttempt : Nat
deriving DecidableEq

/-- Environment of one maintenance-loop iteration. -/
structure NetEnv where
  /-- real milliseconds since boot; `millis()` returns `toUL time` -/
  time : Nat
  /-- `WiFi.status() == WL_CONNECTED` -/
  wifiConnected : Bool
  /-- `g_mqttClient.connected()` -/
  mqttConnected : Bool
  /-- result `doMqttConnect()` would return if called -/
  mqttConnectOk : Bool

/-- `wifiMqttMaintainLoop`: returns the new state and the pair
(wireless attempt issued, messaging attempt issued). -/
def wifiMqttMaintainLoop (st : NetState) (e : NetEnv) : NetState × Bool × Bool :=
  if e.wifiConnected = false then
    if 10000 < ulSub (toUL e.time) st.lastWiFiReconnectAttempt then
      ({ st with lastWiFiReconnectAttempt := toUL e.time }, true, false)
    else
      (st, false, false)
  else if e.mqttConnected = false then
    if 10000 < ulSub (toUL e.time) st.lastMqttReconnectAttempt then
      if e.mqttConnectOk = true then
        ({ st with lastMqttReconnectAttempt := 0 }, false, true)
      else
        ({ st with lastMqttReconnectAttempt := toUL e.time }, false, true)
    else
      (st, false, false)
  else
    (st, false, false)

theorem maintain_wifiDown_due {st : NetState} {e : NetEnv}
    (hw : e.wifiConnected = false)
    (hdue : 10000 < ulSub (toUL e.time) st.lastWiFiReconnectAttempt) :
    wifiMqttMaintainLoop st e =
      ({ st with lastWiFiReconnectAttempt := toUL e.time }, true, false) := by
  unfold wifiMqttMaintainLoop
  rw [hw, if_pos rfl, if_pos hdue]

theorem maintain_wifiDown_wait {st : NetState} {e : NetEnv}
    (hw : e.wifiConnected = false)
    (hdue : ¬ 10000 < ulSub (toUL e.time) st.lastWiFiReconnectAttempt) :
    wifiMqttMaintainLoop st e = (st, false, false) := by
  unfold wifiMqttMaintainLoop
  rw [hw, if_pos rfl, if_neg hdue]

theorem maintain_bothUp {st : NetState} {e : NetEnv}
    (hw : e.wifiConnected = true) (hm : e.mqttConnected = true) :
    wifiMqttMaintainLoop st e = (st, false, false) := by
  unfold wifiMqttMaintainLoop
  rw [hw, if_neg (by simp), hm, if_neg (by simp)]

theorem maintain_mqttDown_wait {st : NetState} {e : NetEnv}
    (hw : e.wifiConnected = true) (hm : e.mqttConnected = false)
    (hdue : ¬ 10000 < ulSub (toUL e.time) st.lastMqttReconnectAttempt) :
    wifiMqttMaintainLoop st e = (st, false, false) := by
  unfold wifiMqttMaintainLoop
  rw [hw, if_neg (by simp), hm, if_pos rfl, if_neg hdue]

theorem maintain_mqttDown_ok {st : NetState} {e : NetEnv}
    (hw : e.wifiConnected = true) (hm : e.mqttConnected = false)
    (hdue : 10000 < ulSub (toUL e.time) st.lastMqttReconnectAttempt)
    (hok : e.mqttConnectOk = true) :
    wifiMqttMaintainLoop st e =
      ({ st with lastMqttReconnectAttempt := 0 }, false, true) := by
  unfold wifiMqttMaintainLoop
  rw [hw, if_neg (by simp), hm, if_pos rfl, if_pos hdue, if_pos hok]

theorem maintain_mqttDown_fail {st : NetState} {e : NetEnv}
    (hw : e.wifiConnected = true) (hm : e.mqttConnected = false)
    (hdue : 10000 < ulSub (toUL e.time) st.lastMqttReconnectAttempt)
    (hok : e.mqttConnectOk = false) :
    wifiMqttMaintainLoop st e =
      ({ st with lastMqttReconnectAttempt := toUL e.time }, false, true) := by
  unfold wifiMqttMaintainLoop
  rw [hw, if_neg (by simp), hm, if_pos rfl, if_pos hdue, if_neg (by simp [hok])]

/-- Run the maintenance loop over a sequence of iterations. -/
def netRun : List NetEnv → NetState → NetState
  | [], st => st
  | e :: es, st => netRun es (wifiMqttMaintainLoop st e).1

/-- Real times of the wireless reconnection attempts issued along a run. -/
def wifiAttemptTimes : List NetEnv → NetState → List Nat
  | [], _ => []
  | e :: es, st =>
      let r := wifiMqttMaintainLoop st e
      (if r.2.1 then [e.time] else []) ++ wifiAttemptTimes es r.1

/-- Real times of the messaging-bus reconnection attempts issued along a
run, each paired with whether the attempt succeeded. -/
def mqttAttempts : List NetEnv → NetState → List (Nat × Bool)
  | [], _ => []
  | e :: es, st =>
      let r := wifiMqttMaintainLoop st e
      (if r.2.2 then [(e.time, e.mqttConnectOk)] else []) ++ mqttAttempts es r.1

/-- Wraparound subtraction of reduced clocks recovers the true separation
mod 2^32. -/
theorem ulSub_toUL (t1 t2 : Nat) (h : t1 ≤ t2) :
    ulSub (toUL t2) (toUL t1) = (t2 - t1) % UL_MOD := by
  unfold ulSub toUL UL_MOD
  omega

/-- If the 10-second guard passes between reduced clocks, more than 10
seconds of real time have elapsed. -/
theorem ulSub_gap {t1 t2 : Nat} (h : t1 ≤ t2)
    (hg : 10000 < ulSub (toUL t2) (toUL t1)) : t1 + 10000 < t2 := by
  rw [ulSub_toUL t1 t2 h] at hg
  have : (t2 - t1) % UL_MOD ≤ t2 - t1 := Nat.mod_le _ _
  omega

theorem wifiAttemptTimes_chain :
    ∀ (es : List NetEnv) (st : NetState) (a : Nat),
      st.lastWiFiReconnectAttempt = toUL a →
      (∀ e ∈ es, a ≤ e.time) →
      List.Pairwise (· ≤ ·) (es.map NetEnv.time) →
      List.Chain' (fun x y => x + 10000 < y) (a :: wifiAttemptTimes es st) := by
  intro es
  induction es with
  | nil => intro st a _ _ _; simp [wifiAttemptTimes]
  | cons e es ih =>
    intro st a hst ha hmono
    have ha_e : a ≤ e.time := ha e (by simp)
    have ha_rest : ∀ e' ∈ es, a ≤ e'.time := fun e' he' => ha e' (by simp [he'])
    have hp : (∀ t ∈ List.map NetEnv.time es, e.time ≤ t) ∧
        List.Pairwise (· ≤ ·) (List.map NetEnv.time es) := by
      rw [List.map_cons, List.pairwise_cons] at hmono
      exact hmono
    have hmono_rest := hp.2
    have he_rest : ∀ e' ∈ es, e.time ≤ e'.time := fun e' he' =>
      hp.1 e'.time (List.mem_map_of_mem NetEnv.time he')
    unfold wifiAttemptTimes
    cases hw : e.wifiConnected with
    | false =>
      by_cases hdue : 10000 < ulSub (toUL e.time) st.lastWiFiReconnectAttempt
      · rw [maintain_wifiDown_due hw hdue]
        exact List.chain'_cons.mpr
          ⟨ulSub_gap ha_e (hst ▸ hdue),
            ih { st with lastWiFiReconnectAttempt := toUL e.time } e.time rfl he_rest hmono_rest⟩
      · rw [maintain_wifiDown_wait hw hdue]
        exact ih st a hst ha_rest hmono_rest
    | true =>
      cases hm : e.mqttConnected with
      | true =>
        rw [maintain_bothUp hw hm]
        exact ih st a hst ha_rest hmono_rest
      | false =>
        by_cases hdue : 10000 < ulSub (toUL e.time) st.lastMqttReconnectAttempt
        · cases hok : e.mqttConnectOk with
          | true =>
            rw [maintain_mqttDown_ok hw hm hdue hok]
            exact ih { st with lastMqttReconnectAttempt := 0 } a hst ha_rest hmono_rest
          | false =>
            rw [maintain_mqttDown_fail hw hm hdue hok]
            exact ih { st with lastMqttReconnectAttempt := toUL e.time } a hst ha_rest hmono_rest
        · rw [maintain_mqttDown_wait hw hm hdue]
          exact ih st a hst ha_rest hmono_rest

/-- A successful attempt satisfies the interval relation towards any later
attempt. -/
theorem mqttChainConsTrue {l : List (Nat × Bool)} (t : Nat)
    (h : List.Chain' (fun p q : Nat × Bool => p.2 = true ∨ p.1 + 10000 < q.1) l) :
    List.Chain' (fun p q : Nat × Bool => p.2 = true ∨ p.1 + 10000 < q.1) ((t, true) :: l) := by
  cases l with
  | nil => simp
  | cons p ps => exact List.chain'_cons.mpr ⟨Or.inl rfl, h⟩

theorem mqttAttempts_chain :
    ∀ (es : List NetEnv) (st : NetState) (a : Nat),
      st.lastMqttReconnectAttempt = toUL a →
      (∀ e ∈ es, a ≤ e.time) →
      List.Pairwise (· ≤ ·) (es.map NetEnv.time) →
      List.Chain' (fun p q : Nat × Bool => p.2 = true ∨ p.1 + 10000 < q.1)
        ((a, false) :: mqttAttempts es st) := by
  intro es
  induction es with
  | nil => intro st a _ _ _; simp [mqttAttempts]
  | cons e es ih =>
    intro st a hst ha hmono
    have ha_e : a ≤ e.time := ha e (by simp)
    have ha_rest : ∀ e' ∈ es, a ≤ e'.time := fun e' he' => ha e' (by simp [he'])
    have hp : (∀ t ∈ List.map NetEnv.time es, e.time ≤ t) ∧
        List.Pairwise (· ≤ ·) (List.map NetEnv.time es) := by
      rw [List.map_cons, List.pairwise_cons] at hmono
      exact hmono
    have hmono_rest := hp.2
    have he_rest : ∀ e' ∈ es, e.time ≤ e'.time := fun e' he' =>
      hp.1 e'.time (List.mem_map_of_mem NetEnv.time he')
    unfold mqttAttempts
    cases hw : e.wifiConnected with
    | false =>
      by_cases hdue : 10000 < ulSub (toUL e.time) st.lastWiFiReconnectAttempt
      · rw [maintain_wifiDown_due hw hdue]
        exact ih { st with lastWiFiReconnectAttempt := toUL e.time } a hst ha_rest hmono_rest
      · rw [maintain_wifiDown_wait hw hdue]
        exact ih st a hst ha_rest hmono_rest
    | true =>
      cases hm : e.mqttConnected with
      | true =>
        rw [maintain_bothUp hw hm]
        exact ih st a hst ha_rest hmono_rest
      | false =>
        by_cases hdue : 10000 < ulSub (toUL e.time) st.lastMqttReconnectAttempt
        · have hgap : a + 10000 < e.time := ulSub_gap ha_e (hst ▸ hdue)
          cases hok : e.mqttConnectOk with
          | true =>
            rw [maintain_mqttDown_ok hw hm hdue hok]
            refine List.chain'_cons.mpr ⟨Or.inr hgap, ?_⟩
            have htail := ih { st with lastMqttReconnectAttempt := 0 } 0 rfl
              (fun e' _ => Nat.zero_le _) hmono_rest
            exact mqttChainConsTrue e.time htail.tail
          | false =>
            rw [maintain_mqttDown_fail hw hm hdue hok]
            refine List.chain'_cons.mpr ⟨Or.inr hgap, ?_⟩
            exact ih { st with lastMqttReconnectAttempt := toUL e.time } e.time rfl
              he_rest hmono_rest
        · rw [maintain_mqttDown_wait hw hm hdue]
          exact ih st a hst ha_rest hmono_rest

/-- A two-iteration run exhibiting the C2 violation for the messaging-bus
link: both iterations have the wireless link up and the messaging link
down; the first connect attempt succeeds (resetting the retry timestamp to
zero), the second follows 5 ms later. -/
def c2trace : List NetEnv :=
  [⟨20000, true, false, true⟩, ⟨20005, true, false, false⟩]

/-- C2 as stated fails on the code: on `c2trace` (whose clock is monotone)
the maintenance loop issues two messaging-bus reconnection attempts only
5 ms apart, because a successful connect resets
`lastMqttReconnectAttempt` to 0 (line 3113 of `lvgl_elk.h`). -/
theorem C2_counterexample :
    List.Pairwise (· ≤ ·) (c2trace.map NetEnv.time)
    ∧ mqttAttempts c2trace ⟨0, 0⟩ = [(20000, true), (20005, false)]
    ∧ 20005 - 20000 < 10000 := by
  refine ⟨by decide, by decide, by decide⟩

/-- C2 (amended): across any sequence of maintenance-loop iterations with a
monotone clock, two consecutive wireless reconnection attempts are always
separated by more than the 10000 ms minimum retry interval; for the
messaging-bus link the same separation holds between an attempt and the
attempt following it whenever the earlier attempt failed — after a
successful connect the retry timestamp is reset, so the next attempt may
come sooner. -/
theorem C2_min_retry_interval (es : List NetEnv)
    (hmono : List.Pairwise (· ≤ ·) (es.map NetEnv.time)) :
    List.Chain' (fun x y => x + 10000 < y) (wifiAttemptTimes es ⟨0, 0⟩)
    ∧ List.Chain' (fun p q : Nat × Bool => p.2 = true ∨ p.1 + 10000 < q.1)
        (mqttAttempts es ⟨0, 0⟩) :=
  ⟨(wifiAttemptTimes_chain es ⟨0, 0⟩ 0 rfl (fun _ _ => Nat.zero_le _) hmono).tail,
   (mqttAttempts_chain es ⟨0, 0⟩ 0 rfl (fun _ _ => Nat.zero_le _) hmono).tail⟩

/-- Witness for C2 (amended) at a concrete monotone trace. -/
theorem C2_min_retry_interval_witness :
    List.Chain' (fun x y => x + 10000 < y) (wifiAttemptTimes c2trace ⟨0, 0⟩)
    ∧ List.Chain' (fun p q : Nat × Bool => p.2 = true ∨ p.1 + 10000 < q.1)
        (mqttAttempts c2trace ⟨0, 0⟩) :=
  C2_min_retry_interval c2trace (by decide)

/-- C6's reset clause fails on the code: with a failed messaging attempt on
record at t = 20000, the wireless link down at t = 28000 and back up at
t = 29000 with the messaging link still down, `lastMqttReconnectAttempt`
stays 20000 after both iterations — it is reset neither to zero nor to the
current time when wireless connectivity returns (and the pending messaging
reconnect is consequently still gated by the stale timestamp). -/
theorem C6_counterexample :
    netRun [⟨28000, false, false, true⟩, ⟨29000, true, false, true⟩] ⟨15000, 20000⟩
      = ⟨28000, 20000⟩
    ∧ (wifiMqttMaintainLoop ⟨28000, 20000⟩ ⟨29000, true, false, true⟩).2.2 = false
    ∧ ((20000 : Nat) ≠ 0 ∧ (20000 : Nat) ≠ 29000) := by
  refine ⟨by decide, by decide, by decide⟩

/-- C6 (amended): in every iteration in which the wireless link is not
connected, no messaging-bus connection attempt is made and the messaging
retry timestamp is untouched (so messaging reconnection waits until
wireless reports connected); the messaging retry timestamp is reset to
zero only by a successful messaging-bus connect — not by wireless
connectivity returning — and is otherwise unchanged whenever the
messaging link is up or its retry interval has not yet elapsed. -/
theorem C6_mqtt_gated_on_wifi :
    (∀ (st : NetState) (e : NetEnv), e.wifiConnected = false →
        (wifiMqttMaintainLoop st e).2.2 = false
        ∧ (wifiMqttMaintainLoop st e).1.lastMqttReconnectAttempt
          = st.lastMqttReconnectAttempt)
    ∧ (∀ (st : NetState) (e : NetEnv), e.wifiConnected = true →
        e.mqttConnected = false →
        10000 < ulSub (toUL e.time) st.lastMqttReconnectAttempt →
        e.mqttConnectOk = true →
        (wifiMqttMaintainLoop st e).1.lastMqttReconnectAttempt = 0
        ∧ (wifiMqttMaintainLoop st e).2.2 = true)
    ∧ (∀ (st : NetState) (e : NetEnv), e.wifiConnected = true →
        (e.mqttConnected = true ∨
          ¬ 10000 < ulSub (toUL e.time) st.lastMqttReconnectAttempt) →
        (wifiMqttMaintainLoop st e).1.lastMqttReconnectAttempt
          = st.lastMqttReconnectAttempt
        ∧ (wifiMqttMaintainLoop st e).2.2 = false) := by
  refine ⟨?_, ?_, ?_⟩
  · intro st e hw
    by_cases hdue : 10000 < ulSub (toUL e.time) st.lastWiFiReconnectAttempt
    · rw [maintain_wifiDown_due hw hdue]
      exact ⟨rfl, rfl⟩
    · rw [maintain_wifiDown_wait hw hdue]
      exact ⟨rfl, rfl⟩
  · intro st e hw hm hdue hok
    rw [maintain_mqttDown_ok hw hm hdue hok]
    exact ⟨rfl, rfl⟩
  · intro st e hw hrest
    cases hm : e.mqttConnected with
    | true =>
      rw [maintain_bothUp hw hm]
      exact ⟨rfl, rfl⟩
    | false =>
      rcases hrest with hmt | hdue
      · rw [hm] at hmt
        exact absurd hmt (by simp)
      · rw [maintain_mqttDown_wait hw hm hdue]
        exact ⟨rfl, rfl⟩

/-- Witness for C6 (amended) at concrete states and environments. -/
theorem C6_mqtt_gated_on_wifi_witness :
    ((wifiMqttMaintainLoop ⟨15000, 20000⟩ ⟨28000, false, false, true⟩).2.2 = false
      ∧ (wifiMqttMaintainLoop ⟨15000, 20000⟩
          ⟨28000, false, false, true⟩).1.lastMqttReconnectAttempt = 20000)
    ∧ ((wifiMqttMaintainLoop ⟨0, 0⟩ ⟨20000, true, false, true⟩).1.lastMqttReconnectAttempt = 0
      ∧ (wifiMqttMaintainLoop ⟨0, 0⟩ ⟨20000, true, false, true⟩).2.2 = true)
    ∧ ((wifiMqttMaintainLoop ⟨0, 20000⟩
          ⟨29000, true, false, true⟩).1.lastMqttReconnectAttempt = 20000
      ∧ (wifiMqttMaintainLoop ⟨0, 20000⟩ ⟨29000, true, false, true⟩).2.2 = false) :=
  ⟨C6_mqtt_gated_on_wifi.1 ⟨15000, 20000⟩ ⟨28000, false, false, true⟩ (by decide),
   C6_mqtt_gated_on_wifi.2.1 ⟨0, 0⟩ ⟨20000, true, false, true⟩ (by decide) (by decide)
     (by decide) (by decide),
   C6_mqtt_gated_on_wifi.2.2 ⟨0, 20000⟩ ⟨29000, true, false, true⟩ (by decide)
     (Or.inr (by decide))⟩

/-! ### Resource Manager (memory manager)

From `src/webscreen_firmware/src/utils/memory/memory_manager.cpp`.

The heap itself (`heap_caps_malloc` / `heap_caps_realloc` /
`heap_caps_free` and the free-size queries) is an external collaborator;
each embedded operation therefore takes the outcomes the heap would
produce for the capability queries the code can make, plus the `millis()`
timestamp, as an environment record.  `size_t` quantities are modelled as
`Nat`: on the target `size_t` is 32-bit, and the tracked totals are sums
of sizes of simultaneously live heap allocations, which physically cannot
approach `2^32`; the no-underflow side of this idealisation is discharged
by `memRun_total_eq_sum` below (the subtraction in `untrack_allocation`
always removes a size that is part of the running total).  An instrumented
`memory_alloc` also returns the list of capabilities it passed to
`heap_caps_malloc`, in call order.
-/

/-- Abstract non-null heap pointer. -/
abbrev Ptr : Type := Nat

/-- `memory_strategy_t` from `memory_manager.h`. -/
inductive memory_strategy_t where
  | MEMORY_STRATEGY_INTERNAL_ONLY
  | MEMORY_STRATEGY_PSRAM_ONLY
  | MEMORY_STRATEGY_PSRAM_PREFERRED
  | MEMORY_STRATEGY_AUTO
deriving DecidableEq

/-- The capability argument of a `heap_caps_malloc`/`heap_caps_realloc`
call. -/
inductive MemCap where
  | MALLOC_CAP_SPIRAM
  | MALLOC_CAP_INTERNAL
deriving DecidableEq

/-- The stats fields maintained by the manager itself (`internal_free` and
`psram_free` are filled in from the heap only inside `memory_get_stats`
and are treated as oracle inputs where a claim needs them). -/
structure memory_stats_t where
  total_allocated : Nat
  peak_allocated : Nat
  allocation_count : Nat
  failed_allocations : Nat
deriving DecidableEq

/-- One node of the `g_alloc_list` tracking list. -/
structure alloc_entry_t where
  ptr : Ptr
  size : Nat
  caller : String
  timestamp : Nat
deriving DecidableEq

/-- The manager's internal state (`g_memory_stats`, `g_alloc_list`,
`g_psram_available`), after `memory_manager_init` has run. -/
structure MemState where
  g_memory_stats : memory_stats_t
  g_alloc_list : List alloc_entry_t
  g_psram_available : Bool
deriving DecidableEq

/-- `memory_manager_init`: zeroed statistics, empty tracking list; PSRAM
availability is probed from the hardware. -/
def memory_manager_init (psram : Bool) : MemState :=
  ⟨⟨0, 0, 0, 0⟩, [], psram⟩

/-- `track_allocation`: its internal `malloc` of the tracking node may
itself fail (`entryOk = false`), in which case the statistics are left
untouched, exactly as in the source. -/
def track_allocation (st : MemState) (ptr : Option Ptr) (size : Nat)
    (caller : String) (now : Nat) (entryOk : Bool) : MemState :=
  match ptr with
  | none => st
  | some p =>
      if entryOk then
        { st with
          g_alloc_list := ⟨p, size, caller, now⟩ :: st.g_alloc_list,
          g_memory_stats :=
            { st.g_memory_stats with
              total_allocated := st.g_memory_stats.total_allocated + size,
              allocation_count := st.g_memory_stats.allocation_count + 1,
              peak_allocated := max st.g_memory_stats.peak_allocated
                (st.g_memory_stats.total_allocated + size) } }
      else st

/-- Remove the first tracking node whose pointer matches, returning it,
mirroring the `while (*current)` walk in `untrack_allocation`. -/
def removeFirst (p : Ptr) : List alloc_entry_t → Option (alloc_entry_t × List alloc_entry_t)
  | [] => none
  | e :: rest =>
      if e.ptr = p then some (e, rest)
      else (removeFirst p rest).map (fun r => (r.1, e :: r.2))

/-- `untrack_allocation`. -/
def untrack_allocation (st : MemState) (ptr : Option Ptr) : MemState :=
  match ptr with
  | none => st
  | some p =>
      match removeFirst p st.g_alloc_list with
      | none => st
      | some (e, rest) =>
          { st with
            g_alloc_list := rest,
            g_memory_stats :=
              { st.g_memory_stats with
                total_allocated := st.g_memory_stats.total_allocated - e.size,
                allocation_count := st.g_memory_stats.allocation_count - 1 } }

/-- `g_memory_stats.failed_allocations++`. -/
def bumpFailed (st : MemState) : MemState :=
  { st with
    g_memory_stats :=
      { st.g_memory_stats with
        failed_allocations := st.g_memory_stats.failed_allocations + 1 } }

/-- Heap outcomes for one `memory_alloc` call: what `heap_caps_malloc`
would return for each capability, whether the tracking-node `malloc`
succeeds, and `millis()`. -/
structure AllocEnv where
  spiramResult : Option Ptr
  internalResult : Option Ptr
  entryOk : Bool
  now : Nat

/-- The `switch (strategy)` of `memory_alloc`: the pointer obtained and the
capabilities passed to `heap_caps_malloc`, in call order. -/
def allocAttempt (st : MemState) (size : Nat) (strategy : memory_strategy_t)
    (env : AllocEnv) : Option Ptr × List MemCap :=
  match strategy with
  | memory_strategy_t.MEMORY_STRATEGY_INTERNAL_ONLY =>
      (env.internalResult, [MemCap.MALLOC_CAP_INTERNAL])
  | memory_strategy_t.MEMORY_STRATEGY_PSRAM_ONLY =>
      if st.g_psram_available then (env.spiramResult, [MemCap.MALLOC_CAP_SPIRAM])
      else (none, [])
  | memory_strategy_t.MEMORY_STRATEGY_PSRAM_PREFERRED =>
      if st.g_psram_available then
        match env.spiramResult with
        | some p => (some p, [MemCap.MALLOC_CAP_SPIRAM])
        | none => (env.internalResult, [MemCap.MALLOC_CAP_SPIRAM, MemCap.MALLOC_CAP_INTERNAL])
      else (env.internalResult, [MemCap.MALLOC_CAP_INTERNAL])
  | memory_strategy_t.MEMORY_STRATEGY_AUTO =>
      if 4096 < size ∧ st.g_psram_available = true then
        match env.spiramResult with
        | some p => (some p, [MemCap.MALLOC_CAP_SPIRAM])
        | none => (env.internalResult, [MemCap.MALLOC_CAP_SPIRAM, MemCap.MALLOC_CAP_INTERNAL])
      else (env.internalResult, [MemCap.MALLOC_CAP_INTERNAL])

/-- `memory_alloc`: returns the pointer handed to the caller, the new
manager state, and (instrumentation) the capability attempts made.  Note
that on failure the function increments `failed_allocations` and returns
null; it has no aborting path. -/
def memory_alloc (st : MemState) (size : Nat) (strategy : memory_strategy_t)
    (caller : String) (env : AllocEnv) : Option Ptr × MemState × List MemCap :=
  match (allocAttempt st size strategy env).1 with
  | some p =>
      (some p, track_allocation st (some p) size caller env.now env.entryOk,
        (allocAttempt st size strategy env).2)
  | none => (none, bumpFailed st, (allocAttempt st size strategy env).2)

/-- `memory_free`. -/
def memory_free (st : MemState) (ptr : Option Ptr) : MemState :=
  match ptr with
  | none => st
  | some p => untrack_allocation st (some p)

/-- Heap outcomes for one `memory_realloc` call; when the incoming pointer
is null the call degenerates to `memory_alloc` with `allocEnv`. -/
structure ReallocEnv where
  spiramResult : Option Ptr
  internalResult : Option Ptr
  allocEnv : AllocEnv
  entryOk : Bool
  now : Nat

/-- The `switch (strategy)` of `memory_realloc`.  The realloc switch has no
`MEMORY_STRATEGY_PSRAM_ONLY` case, so that strategy falls into the
`default` (AUTO) branch. -/
def reallocAttempt (st : MemState) (new_size : Nat) (strategy : memory_strategy_t)
    (env : ReallocEnv) : Option Ptr :=
  match strategy with
  | memory_strategy_t.MEMORY_STRATEGY_INTERNAL_ONLY => env.internalResult
  | memory_strategy_t.MEMORY_STRATEGY_PSRAM_PREFERRED =>
      if st.g_psram_available then
        match env.spiramResult with
        | some q => some q
        | none => env.internalResult
      else env.internalResult
  | _ =>
      if 4096 < new_size ∧ st.g_psram_available = true then
        match env.spiramResult with
        | some q => some q
        | none => env.internalResult
      else env.internalResult

/-- `memory_realloc`: untrack the old node, attempt the reallocation, and
either track the new node or — on failure — re-track the original pointer
with size 0 (the source's "Size unknown, but preserve tracking") and bump
`failed_allocations`. -/
def memory_realloc (st : MemState) (ptr : Option Ptr) (new_size : Nat)
    (strategy : memory_strategy_t) (caller : String) (env : ReallocEnv) :
    Option Ptr × MemState :=
  match ptr with
  | none =>
      ((memory_alloc st new_size strategy caller env.allocEnv).1,
        (memory_alloc st new_size strategy caller env.allocEnv).2.1)
  | some p =>
      if new_size = 0 then (none, memory_free st (some p))
      else
        match reallocAttempt st new_size strategy env with
        | some q =>
            (some q, track_allocation (untrack_allocation st (some p)) (some q)
              new_size caller env.now env.entryOk)
        | none =>
            (none, bumpFailed (track_allocation (untrack_allocation st (some p)) (some p)
              0 caller env.now env.entryOk))

/-- `memory_get_recommended_strategy`; `internal_free` is the value
`memory_get_stats` reads from `heap_caps_get_free_size(MALLOC_CAP_INTERNAL)`. -/
def memory_get_recommended_strategy (psram_available : Bool) (internal_free : Nat)
    (required_size : Nat) : memory_strategy_t :=
  if psram_available = false then memory_strategy_t.MEMORY_STRATEGY_INTERNAL_ONLY
  else if 32768 < required_size then memory_strategy_t.MEMORY_STRATEGY_PSRAM_PREFERRED
  else if internal_free < required_size * 2 then
    memory_strategy_t.MEMORY_STRATEGY_PSRAM_PREFERRED
  else if required_size < 1024 then memory_strategy_t.MEMORY_STRATEGY_INTERNAL_ONLY
  else memory_strategy_t.MEMORY_STRATEGY_AUTO

/-- One call into the manager's mutating interface. -/
inductive MemOp where
  | alloc (size : Nat) (strategy : memory_strategy_t) (caller : String) (env : AllocEnv)
  | free (ptr : Option Ptr)
  | realloc (ptr : Option Ptr) (new_size : Nat) (strategy : memory_strategy_t)
      (caller : String) (env : ReallocEnv)

/-- State effect of one call. -/
def memStep (st : MemState) : MemOp → MemState
  | MemOp.alloc size strategy caller env => (memory_alloc st size strategy caller env).2.1
  | MemOp.free ptr => memory_free st ptr
  | MemOp.realloc ptr new_size strategy caller env =>
      (memory_realloc st ptr new_size strategy caller env).2

/-- Run a sequence of calls. -/
def memRun (ops : List MemOp) (st : MemState) : MemState :=
  ops.foldl memStep st

/-! Equation lemmas exposing the branch structure of the manager's
operations, used to drive the case analyses below. -/

theorem track_allocation_some (st : MemState) (p : Ptr) (size : Nat)
    (caller : String) (now : Nat) (entryOk : Bool) :
    track_allocation st (some p) size caller now entryOk
      = (if entryOk then
          { st with
            g_alloc_list := ⟨p, size, caller, now⟩ :: st.g_alloc_list,
            g_memory_stats :=
              { st.g_memory_stats with
                total_allocated := st.g_memory_stats.total_allocated + size,
                allocation_count := st.g_memory_stats.allocation_count + 1,
                peak_allocated := max st.g_memory_stats.peak_allocated
                  (st.g_memory_stats.total_allocated + size) } }
         else st) := rfl

theorem untrack_allocation_some (st : MemState) (p : Ptr) :
    untrack_allocation st (some p) =
      (match removeFirst p st.g_alloc_list with
       | none => st
       | some (e, rest) =>
           { st with
             g_alloc_list := rest,
             g_memory_stats :=
               { st.g_memory_stats with
                 total_allocated := st.g_memory_stats.total_allocated - e.size,
                 allocation_count := st.g_memory_stats.allocation_count - 1 } }) := rfl

theorem memory_alloc_some {st : MemState} {size : Nat} {strategy : memory_strategy_t}
    {env : AllocEnv} {p : Ptr} (caller : String)
    (hA : (allocAttempt st size strategy env).1 = some p) :
    memory_alloc st size strategy caller env
      = (some p, track_allocation st (some p) size caller env.now env.entryOk,
          (allocAttempt st size strategy env).2) := by
  unfold memory_alloc
  rw [hA]

theorem memory_alloc_none {st : MemState} {size : Nat} {strategy : memory_strategy_t}
    {env : AllocEnv} (caller : String)
    (hA : (allocAttempt st size strategy env).1 = none) :
    memory_alloc st size strategy caller env
      = (none, bumpFailed st, (allocAttempt st size strategy env).2) := by
  unfold memory_alloc
  rw [hA]

theorem memory_realloc_null (st : MemState) (new_size : Nat)
    (strategy : memory_strategy_t) (caller : String) (env : ReallocEnv) :
    memory_realloc st none new_size strategy caller env
      = ((memory_alloc st new_size strategy caller env.allocEnv).1,
          (memory_alloc st new_size strategy caller env.allocEnv).2.1) := rfl

theorem memory_realloc_some (st : MemState) (p : Ptr) (new_size : Nat)
    (strategy : memory_strategy_t) (caller : String) (env : ReallocEnv) :
    memory_realloc st (some p) new_size strategy caller env
      = (if new_size = 0 then (none, memory_free st (some p))
         else
           match reallocAttempt st new_size strategy env with
           | some q =>
               (some q, track_allocation (untrack_allocation st (some p)) (some q)
                 new_size caller env.now env.entryOk)
           | none =>
               (none, bumpFailed (track_allocation (untrack_allocation st (some p)) (some p)
                 0 caller env.now env.entryOk))) := rfl

theorem track_peak_mono (st : MemState) (ptr : Option Ptr) (size : Nat)
    (caller : String) (now : Nat) (entryOk : Bool) :
    st.g_memory_stats.peak_allocated
      ≤ (track_allocation st ptr size caller now entryOk).g_memory_stats.peak_allocated := by
  unfold track_allocation
  cases ptr with
  | none => exact le_refl _
  | some p =>
    cases entryOk with
    | true => exact le_max_left _ _
    | false => exact le_refl _

theorem track_total_le_peak (st : MemState) (ptr : Option Ptr) (size : Nat)
    (caller : String) (now : Nat) (entryOk : Bool)
    (hI : st.g_memory_stats.total_allocated ≤ st.g_memory_stats.peak_allocated) :
    (track_allocation st ptr size caller now entryOk).g_memory_stats.total_allocated
      ≤ (track_allocation st ptr size caller now entryOk).g_memory_stats.peak_allocated := by
  unfold track_allocation
  cases ptr with
  | none => exact hI
  | some p =>
    cases entryOk with
    | true => exact le_max_right _ _
    | false => exact hI

theorem untrack_peak_eq (st : MemState) (ptr : Option Ptr) :
    (untrack_allocation st ptr).g_memory_stats.peak_allocated
      = st.g_memory_stats.peak_allocated := by
  cases ptr with
  | none => rfl
  | some p =>
    rw [untrack_allocation_some]
    cases hr : removeFirst p st.g_alloc_list with
    | none => rfl
    | some pr =>
      obtain ⟨e, rest⟩ := pr
      rfl

theorem untrack_total_le (st : MemState) (ptr : Option Ptr) :
    (untrack_allocation st ptr).g_memory_stats.total_allocated
      ≤ st.g_memory_stats.total_allocated := by
  cases ptr with
  | none => exact le_refl _
  | some p =>
    rw [untrack_allocation_some]
    cases hr : removeFirst p st.g_alloc_list with
    | none => exact le_refl _
    | some pr =>
      obtain ⟨e, rest⟩ := pr
      exact Nat.sub_le _ _

theorem bumpFailed_peak_eq (st : MemState) :
    (bumpFailed st).g_memory_stats.peak_allocated = st.g_memory_stats.peak_allocated := rfl

theorem bumpFailed_total_eq (st : MemState) :
    (bumpFailed st).g_memory_stats.total_allocated = st.g_memory_stats.total_allocated := rfl

theorem memory_alloc_peak_mono (st : MemState) (size : Nat)
    (strategy : memory_strategy_t) (caller : String) (env : AllocEnv) :
    st.g_memory_stats.peak_allocated
      ≤ ((memory_alloc st size strategy caller env).2.1).g_memory_stats.peak_allocated := by
  cases hA : (allocAttempt st size strategy env).1 with
  | some p =>
    rw [memory_alloc_some caller hA]
    exact track_peak_mono st (some p) size caller env.now env.entryOk
  | none =>
    rw [memory_alloc_none caller hA]
    exact le_of_eq (bumpFailed_peak_eq st).symm

theorem memory_alloc_total_le_peak (st : MemState) (size : Nat)
    (strategy : memory_strategy_t) (caller : String) (env : AllocEnv)
    (hI : st.g_memory_stats.total_allocated ≤ st.g_memory_stats.peak_allocated) :
    ((memory_alloc st size strategy caller env).2.1).g_memory_stats.total_allocated
      ≤ ((memory_alloc st size strategy caller env).2.1).g_memory_stats.peak_allocated := by
  cases hA : (allocAttempt st size strategy env).1 with
  | some p =>
    rw [memory_alloc_some caller hA]
    exact track_total_le_peak st (some p) size caller env.now env.entryOk hI
  | none =>
    rw [memory_alloc_none caller hA]
    exact hI

theorem untrack_total_le_peak (st : MemState) (ptr : Option Ptr)
    (hI : st.g_memory_stats.total_allocated ≤ st.g_memory_stats.peak_allocated) :
    (untrack_allocation st ptr).g_memory_stats.total_allocated
      ≤ (untrack_allocation st ptr).g_memory_stats.peak_allocated :=
  (untrack_total_le st ptr).trans (hI.trans (untrack_peak_eq st ptr).symm.le)

theorem memStep_peak_mono (st : MemState) (op : MemOp) :
    st.g_memory_stats.peak_allocated ≤ (memStep st op).g_memory_stats.peak_allocated := by
  cases op with
  | alloc size strategy caller env => exact memory_alloc_peak_mono st size strategy caller env
  | free ptr =>
    cases ptr with
    | none => exact le_refl _
    | some p => exact le_of_eq (untrack_peak_eq st (some p)).symm
  | realloc ptr new_size strategy caller env =>
    show st.g_memory_stats.peak_allocated
      ≤ ((memory_realloc st ptr new_size strategy caller env).2).g_memory_stats.peak_allocated
    cases ptr with
    | none =>
      rw [memory_realloc_null]
      exact memory_alloc_peak_mono st new_size strategy caller env.allocEnv
    | some p =>
      rw [memory_realloc_some]
      by_cases hns : new_size = 0
      · rw [if_pos hns]
        exact le_of_eq (untrack_peak_eq st (some p)).symm
      · rw [if_neg hns]
        cases hq : reallocAttempt st new_size strategy env with
        | some q =>
          calc st.g_memory_stats.peak_allocated
              = (untrack_allocation st (some p)).g_memory_stats.peak_allocated :=
                (untrack_peak_eq st (some p)).symm
            _ ≤ _ := track_peak_mono _ (some q) new_size caller env.now env.entryOk
        | none =>
          rw [bumpFailed_peak_eq]
          calc st.g_memory_stats.peak_allocated
              = (untrack_allocation st (some p)).g_memory_stats.peak_allocated :=
                (untrack_peak_eq st (some p)).symm
            _ ≤ _ := track_peak_mono _ (some p) 0 caller env.now env.entryOk

theorem memStep_total_le_peak (st : MemState) (op : MemOp)
    (hI : st.g_memory_stats.total_allocated ≤ st.g_memory_stats.peak_allocated) :
    (memStep st op).g_memory_stats.total_allocated
      ≤ (memStep st op).g_memory_stats.peak_allocated := by
  cases op with
  | alloc size strategy caller env =>
    exact memory_alloc_total_le_peak st size strategy caller env hI
  | free ptr =>
    cases ptr with
    | none => exact hI
    | some p => exact untrack_total_le_peak st (some p) hI
  | realloc ptr new_size strategy caller env =>
    show ((memory_realloc st ptr new_size strategy caller env).2).g_memory_stats.total_allocated
      ≤ ((memory_realloc st ptr new_size strategy caller env).2).g_memory_stats.peak_allocated
    cases ptr with
    | none =>
      rw [memory_realloc_null]
      exact memory_alloc_total_le_peak st new_size strategy caller env.allocEnv hI
    | some p =>
      rw [memory_realloc_some]
      by_cases hns : new_size = 0
      · rw [if_pos hns]
        exact untrack_total_le_peak st (some p) hI
      · rw [if_neg hns]
        cases hq : reallocAttempt st new_size strategy env with
        | some q =>
          exact track_total_le_peak _ (some q) new_size caller env.now env.entryOk
            (untrack_total_le_peak st (some p) hI)
        | none =>
          rw [bumpFailed_total_eq, bumpFailed_peak_eq]
          exact track_total_le_peak _ (some p) 0 caller env.now env.entryOk
            (untrack_total_le_peak st (some p) hI)

theorem memRun_total_le_peak (ops : List MemOp) :
    ∀ (st : MemState),
      st.g_memory_stats.total_allocated ≤ st.g_memory_stats.peak_allocated →
      (memRun ops st).g_memory_stats.total_allocated
        ≤ (memRun ops st).g_memory_stats.peak_allocated := by
  induction ops with
  | nil => intro st hI; exact hI
  | cons op ops ih => intro st hI; exact ih (memStep st op) (memStep_total_le_peak st op hI)

/-- Sum of the tracked sizes in a tracking list. -/
def entsSum (l : List alloc_entry_t) : Nat := (l.map alloc_entry_t.size).sum

theorem removeFirst_sum {p : Ptr} :
    ∀ {l : List alloc_entry_t} {e : alloc_entry_t} {rest : List alloc_entry_t},
      removeFirst p l = some (e, rest) → entsSum l = e.size + entsSum rest := by
  intro l
  induction l with
  | nil => intro e rest h; simp [removeFirst] at h
  | cons a as ih =>
    intro e rest h
    unfold removeFirst at h
    by_cases ha : a.ptr = p
    · rw [if_pos ha] at h
      simp only [Option.some.injEq, Prod.mk.injEq] at h
      obtain ⟨rfl, rfl⟩ := h
      simp [entsSum]
    · rw [if_neg ha, Option.map_eq_some'] at h
      obtain ⟨⟨e1, r1⟩, hr, heq⟩ := h
      simp only [Prod.mk.injEq] at heq
      obtain ⟨rfl, rfl⟩ := heq
      have := ih hr
      simp only [entsSum, List.map_cons, List.sum_cons] at this ⊢
      omega

/-- The running total is exactly the sum of the live tracked sizes, for
every reachable state: the subtraction in `untrack_allocation` therefore
always removes a summand of the total and never underflows `size_t`. -/
theorem memRun_total_eq_sum (ops : List MemOp) :
    ∀ (st : MemState),
      st.g_memory_stats.total_allocated = entsSum st.g_alloc_list →
      (memRun ops st).g_memory_stats.total_allocated = entsSum (memRun ops st).g_alloc_list := by
  have htrack : ∀ (st : MemState) (ptr : Option Ptr) (size : Nat) (caller : String)
      (now : Nat) (entryOk : Bool),
      st.g_memory_stats.total_allocated = entsSum st.g_alloc_list →
      (track_allocation st ptr size caller now entryOk).g_memory_stats.total_allocated
        = entsSum (track_allocation st ptr size caller now entryOk).g_alloc_list := by
    intro st ptr size caller now entryOk hI
    unfold track_allocation
    cases ptr with
    | none => exact hI
    | some p =>
      cases entryOk with
      | true =>
        show st.g_memory_stats.total_allocated + size = entsSum (⟨p, size, caller, now⟩ :: st.g_alloc_list)
        simp only [entsSum, List.map_cons, List.sum_cons] at hI ⊢
        omega
      | false => exact hI
  have huntrack : ∀ (st : MemState) (ptr : Option Ptr),
      st.g_memory_stats.total_allocated = entsSum st.g_alloc_list →
      (untrack_allocation st ptr).g_memory_stats.total_allocated
        = entsSum (untrack_allocation st ptr).g_alloc_list := by
    intro st ptr hI
    cases ptr with
    | none => exact hI
    | some p =>
      rw [untrack_allocation_some]
      cases hr : removeFirst p st.g_alloc_list with
      | none => exact hI
      | some pr =>
        obtain ⟨e, rest⟩ := pr
        have := removeFirst_sum hr
        show st.g_memory_stats.total_allocated - e.size = entsSum rest
        omega
  have hstep : ∀ (st : MemState) (op : MemOp),
      st.g_memory_stats.total_allocated = entsSum st.g_alloc_list →
      (memStep st op).g_memory_stats.total_allocated = entsSum (memStep st op).g_alloc_list := by
    intro st op hI
    cases op with
    | alloc size strategy caller env =>
      show ((memory_alloc st size strategy caller env).2.1).g_memory_stats.total_allocated
        = entsSum ((memory_alloc st size strategy caller env).2.1).g_alloc_list
      cases hA : (allocAttempt st size strategy env).1 with
      | some p =>
        rw [memory_alloc_some caller hA]
        exact htrack st (some p) size caller env.now env.entryOk hI
      | none =>
        rw [memory_alloc_none caller hA]
        exact hI
    | free ptr =>
      cases ptr with
      | none => exact hI
      | some p => exact huntrack st (some p) hI
    | realloc ptr new_size strategy caller env =>
      show ((memory_realloc st ptr new_size strategy caller env).2).g_memory_stats.total_allocated
        = entsSum ((memory_realloc st ptr new_size strategy caller env).2).g_alloc_list
      cases ptr with
      | none =>
        rw [memory_realloc_null]
        cases hA : (allocAttempt st new_size strategy env.allocEnv).1 with
        | some p =>
          rw [memory_alloc_some caller hA]
          exact htrack st (some p) new_size caller env.allocEnv.now env.allocEnv.entryOk hI
        | none =>
          rw [memory_alloc_none caller hA]
          exact hI
      | some p =>
        rw [memory_realloc_some]
        by_cases hns : new_size = 0
        · rw [if_pos hns]
          exact huntrack st (some p) hI
        · rw [if_neg hns]
          cases hq : reallocAttempt st new_size strategy env with
          | some q =>
            exact htrack _ (some q) new_size caller env.now env.entryOk (huntrack st (some p) hI)
          | none =>
            exact htrack _ (some p) 0 caller env.now env.entryOk (huntrack st (some p) hI)
  induction ops with
  | nil => intro st hI; exact hI
  | cons op ops ih => intro st hI; exact ih (memStep st op) (hstep st op hI)

/-- A reachable manager state holding one tracked allocation of 100 bytes
at pointer 1 (obtained by a successful `memory_alloc` from the
just-initialised state). -/
def c3state : MemState :=
  (memory_alloc (memory_manager_init true) 100 memory_strategy_t.MEMORY_STRATEGY_AUTO
    "app" ⟨none, some 1, true, 0⟩).2.1

/-- C3 as stated fails on the code: after a failed reallocation of the
tracked 100-byte allocation, the manager re-tracks the original pointer
with size 0 (the source comment reads "Size unknown, but preserve
tracking"), so `total_allocated` drops from 100 to 0 instead of still
accounting for the original size; `allocation_count` is restored and
`failed_allocations` increments. -/
theorem C3_counterexample :
    c3state.g_memory_stats = ⟨100, 100, 1, 0⟩
    ∧ ((memory_realloc c3state (some 1) 200 memory_strategy_t.MEMORY_STRATEGY_AUTO
        "app" ⟨none, none, ⟨none, none, true, 5⟩, true, 5⟩).2).g_memory_stats
      = ⟨0, 100, 1, 1⟩
    ∧ (0 : Nat) ≠ 100 := by
  refine ⟨by decide, by decide, by decide⟩

/-- C3 (amended): when `memory_realloc` is called on a tracked pointer and
both underlying reallocation attempts fail (and the tracking-node
allocation succeeds), the call returns null, the original pointer is still
tracked — but with recorded size 0 — `allocation_count` is unchanged,
`failed_allocations` increments exactly once, and `total_allocated` is
reduced by the original allocation's tracked size rather than restored. -/
theorem C3_realloc_fail_tracking (st : MemState) (p : Ptr) (e : alloc_entry_t)
    (rest : List alloc_entry_t) (new_size : Nat) (strategy : memory_strategy_t)
    (caller : String) (env : ReallocEnv)
    (hrm : removeFirst p st.g_alloc_list = some (e, rest))
    (hns : new_size ≠ 0)
    (hs : env.spiramResult = none) (hi : env.internalResult = none)
    (hok : env.entryOk = true)
    (hcnt : 1 ≤ st.g_memory_stats.allocation_count) :
    (memory_realloc st (some p) new_size strategy caller env).1 = none
    ∧ ((memory_realloc st (some p) new_size strategy caller env).2).g_memory_stats
      = { total_allocated := st.g_memory_stats.total_allocated - e.size,
          peak_allocated := max st.g_memory_stats.peak_allocated
            (st.g_memory_stats.total_allocated - e.size),
          allocation_count := st.g_memory_stats.allocation_count,
          failed_allocations := st.g_memory_stats.failed_allocations + 1 }
    ∧ ((memory_realloc st (some p) new_size strategy caller env).2).g_alloc_list
      = ⟨p, 0, caller, env.now⟩ :: rest := by
  have hatt : reallocAttempt st new_size strategy env = none := by
    unfold reallocAttempt
    cases strategy with
    | MEMORY_STRATEGY_INTERNAL_ONLY => exact hi
    | MEMORY_STRATEGY_PSRAM_PREFERRED =>
      by_cases hps : st.g_psram_available = true
      · rw [if_pos hps, hs]
        exact hi
      · rw [if_neg hps]
        exact hi
    | MEMORY_STRATEGY_PSRAM_ONLY =>
      by_cases hc : 4096 < new_size ∧ st.g_psram_available = true
      · rw [if_pos hc, hs]
        exact hi
      · rw [if_neg hc]
        exact hi
    | MEMORY_STRATEGY_AUTO =>
      by_cases hc : 4096 < new_size ∧ st.g_psram_available = true
      · rw [if_pos hc, hs]
        exact hi
      · rw [if_neg hc]
        exact hi
  have hun : untrack_allocation st (some p)
      = { st with
          g_alloc_list := rest,
          g_memory_stats :=
            { st.g_memory_stats with
              total_allocated := st.g_memory_stats.total_allocated - e.size,
              allocation_count := st.g_memory_stats.allocation_count - 1 } } := by
    rw [untrack_allocation_some, hrm]
  have hfail : memory_realloc st (some p) new_size strategy caller env
      = (none, bumpFailed (track_allocation (untrack_allocation st (some p)) (some p)
          0 caller env.now env.entryOk)) := by
    rw [memory_realloc_some, if_neg hns, hatt]
  rw [hfail, hun, hok, track_allocation_some, if_pos rfl]
  unfold bumpFailed
  refine ⟨rfl, ?_, rfl⟩
  simp only [Nat.add_zero, memory_stats_t.mk.injEq, true_and, and_true]
  omega

/-- Witness for C3 (amended), run at the concrete reachable state
`c3state`. -/
theorem C3_realloc_fail_tracking_witness :
    (memory_realloc c3state (some 1) 200 memory_strategy_t.MEMORY_STRATEGY_AUTO
      "app" ⟨none, none, ⟨none, none, true, 5⟩, true, 5⟩).1 = none
    ∧ ((memory_realloc c3state (some 1) 200 memory_strategy_t.MEMORY_STRATEGY_AUTO
        "app" ⟨none, none, ⟨none, none, true, 5⟩, true, 5⟩).2).g_memory_stats
      = { total_allocated := c3state.g_memory_stats.total_allocated - 100,
          peak_allocated := max c3state.g_memory_stats.peak_allocated
            (c3state.g_memory_stats.total_allocated - 100),
          allocation_count := c3state.g_memory_stats.allocation_count,
          failed_allocations := c3state.g_memory_stats.failed_allocations + 1 }
    ∧ ((memory_realloc c3state (some 1) 200 memory_strategy_t.MEMORY_STRATEGY_AUTO
        "app" ⟨none, none, ⟨none, none, true, 5⟩, true, 5⟩).2).g_alloc_list
      = ⟨1, 0, "app", 5⟩ :: [] :=
  C3_realloc_fail_tracking c3state 1 ⟨1, 100, "app", 0⟩ [] 200
    memory_strategy_t.MEMORY_STRATEGY_AUTO "app" ⟨none, none, ⟨none, none, true, 5⟩, true, 5⟩
    (by decide) (by decide) rfl rfl rfl (by decide)

/-- C4 as stated fails at the threshold itself: for the boundary size
32768 (which is ≥ the 32768-byte threshold) with PSRAM available and
ample internal memory, the code's strict `required_size > 32768` test
does not fire and the function returns AUTO, not PSRAM-preferred. -/
theorem C4_counterexample :
    memory_get_recommended_strategy true 200000 32768
      = memory_strategy_t.MEMORY_STRATEGY_AUTO
    ∧ memory_strategy_t.MEMORY_STRATEGY_AUTO
        ≠ memory_strategy_t.MEMORY_STRATEGY_PSRAM_PREFERRED
    ∧ 32768 ≤ 32768 := by
  refine ⟨by decide, by decide, by decide⟩

/-- C4 (amended): for every allocation size strictly greater than the
32768-byte threshold, `memory_get_recommended_strategy` returns
PSRAM-preferred whenever PSRAM is reported available; and whenever PSRAM
is not available it returns internal-only for every size. -/
theorem C4_recommended_strategy (psram : Bool) (internal_free required_size : Nat) :
    (psram = false →
      memory_get_recommended_strategy psram internal_free required_size
        = memory_strategy_t.MEMORY_STRATEGY_INTERNAL_ONLY)
    ∧ (psram = true → 32768 < required_size →
      memory_get_recommended_strategy psram internal_free required_size
        = memory_strategy_t.MEMORY_STRATEGY_PSRAM_PREFERRED) := by
  constructor
  · intro hp
    unfold memory_get_recommended_strategy
    rw [hp]
    rfl
  · intro hp hgt
    unfold memory_get_recommended_strategy
    rw [hp]
    rw [if_neg (by simp), if_pos hgt]

/-- Witness for C4 (amended) at concrete inputs on both sides of the
availability split. -/
theorem C4_recommended_strategy_witness :
    memory_get_recommended_strategy false 100000 40000
      = memory_strategy_t.MEMORY_STRATEGY_INTERNAL_ONLY
    ∧ memory_get_recommended_strategy true 100000 40000
      = memory_strategy_t.MEMORY_STRATEGY_PSRAM_PREFERRED :=
  ⟨(C4_recommended_strategy false 100000 40000).1 rfl,
   (C4_recommended_strategy true 100000 40000).2 rfl (by decide)⟩

/-- C5: with the Auto strategy, a large request for which the preferred
PSRAM tier yields no memory falls back to internal RAM (the capability
attempts are PSRAM then internal, and the returned pointer is the internal
result); if the internal attempt also fails, the call returns null,
increments `failed_allocations` exactly once, and leaves all other
statistics and the tracking list untouched (the function is total: it
never aborts). -/
theorem C5_auto_fallback (st : MemState) (size : Nat) (caller : String) (env : AllocEnv)
    (hsize : 4096 < size) (hpsram : st.g_psram_available = true)
    (hspiram : env.spiramResult = none) :
    (memory_alloc st size memory_strategy_t.MEMORY_STRATEGY_AUTO caller env).2.2
      = [MemCap.MALLOC_CAP_SPIRAM, MemCap.MALLOC_CAP_INTERNAL]
    ∧ (memory_alloc st size memory_strategy_t.MEMORY_STRATEGY_AUTO caller env).1
      = env.internalResult
    ∧ (env.internalResult = none →
        (memory_alloc st size memory_strategy_t.MEMORY_STRATEGY_AUTO caller env).1 = none
        ∧ ((memory_alloc st size memory_strategy_t.MEMORY_STRATEGY_AUTO caller
            env).2.1).g_memory_stats.failed_allocations
          = st.g_memory_stats.failed_allocations + 1
        ∧ ((memory_alloc st size memory_strategy_t.MEMORY_STRATEGY_AUTO caller
            env).2.1).g_memory_stats.total_allocated
          = st.g_memory_stats.total_allocated
        ∧ ((memory_alloc st size memory_strategy_t.MEMORY_STRATEGY_AUTO caller
            env).2.1).g_memory_stats.allocation_count
          = st.g_memory_stats.allocation_count
        ∧ ((memory_alloc st size memory_strategy_t.MEMORY_STRATEGY_AUTO caller
            env).2.1).g_alloc_list = st.g_alloc_list) := by
  have hatt : allocAttempt st size memory_strategy_t.MEMORY_STRATEGY_AUTO env
      = (env.internalResult, [MemCap.MALLOC_CAP_SPIRAM, MemCap.MALLOC_CAP_INTERNAL]) := by
    unfold allocAttempt
    rw [if_pos (show 4096 < size ∧ st.g_psram_available = true from ⟨hsize, hpsram⟩), hspiram]
  refine ⟨?_, ?_, ?_⟩
  · cases hi : env.internalResult with
    | some q =>
      rw [memory_alloc_some caller (by rw [hatt, hi])]
      rw [hatt]
    | none =>
      rw [memory_alloc_none caller (by rw [hatt, hi])]
      rw [hatt]
  · cases hi : env.internalResult with
    | some q => rw [memory_alloc_some caller (by rw [hatt, hi])]
    | none => rw [memory_alloc_none caller (by rw [hatt, hi])]
  · intro hi
    rw [memory_alloc_none caller (by rw [hatt, hi])]
    exact ⟨rfl, rfl, rfl, rfl, rfl⟩

/-- Witness for C5 at the spec's scenario: `allocate(8192, Auto)` with the
PSRAM tier yielding nothing and internal RAM also failing. -/
theorem C5_auto_fallback_witness :
    (memory_alloc (memory_manager_init true) 8192 memory_strategy_t.MEMORY_STRATEGY_AUTO
      "js" ⟨none, none, true, 0⟩).2.2
      = [MemCap.MALLOC_CAP_SPIRAM, MemCap.MALLOC_CAP_INTERNAL]
    ∧ (memory_alloc (memory_manager_init true) 8192 memory_strategy_t.MEMORY_STRATEGY_AUTO
        "js" ⟨none, none, true, 0⟩).1 = (none : Option Ptr)
    ∧ ((none : Option Ptr) = none →
        (memory_alloc (memory_manager_init true) 8192 memory_strategy_t.MEMORY_STRATEGY_AUTO
          "js" ⟨none, none, true, 0⟩).1 = none
        ∧ ((memory_alloc (memory_manager_init true) 8192
            memory_strategy_t.MEMORY_STRATEGY_AUTO "js"
            ⟨none, none, true, 0⟩).2.1).g_memory_stats.failed_allocations
          = (memory_manager_init true).g_memory_stats.failed_allocations + 1
        ∧ ((memory_alloc (memory_manager_init true) 8192
            memory_strategy_t.MEMORY_STRATEGY_AUTO "js"
            ⟨none, none, true, 0⟩).2.1).g_memory_stats.total_allocated
          = (memory_manager_init true).g_memory_stats.total_allocated
        ∧ ((memory_alloc (memory_manager_init true) 8192
            memory_strategy_t.MEMORY_STRATEGY_AUTO "js"
            ⟨none, none, true, 0⟩).2.1).g_memory_stats.allocation_count
          = (memory_manager_init true).g_memory_stats.allocation_count
        ∧ ((memory_alloc (memory_manager_init true) 8192
            memory_strategy_t.MEMORY_STRATEGY_AUTO "js"
            ⟨none, none, true, 0⟩).2.1).g_alloc_list
          = (memory_manager_init true).g_alloc_list) :=
  C5_auto_fallback (memory_manager_init true) 8192 "js" ⟨none, none, true, 0⟩
    (by decide) rfl rfl

/-- C10: for every sequence of `memory_alloc`/`memory_free`/
`memory_realloc` calls from the initialised manager state, the recorded
peak is an upper bound on the current total, and no single call — free and
failed realloc included — ever lowers the recorded peak. -/
theorem C10_peak_invariant :
    (∀ (psram : Bool) (ops : List MemOp),
        (memRun ops (memory_manager_init psram)).g_memory_stats.total_allocated
          ≤ (memRun ops (memory_manager_init psram)).g_memory_stats.peak_allocated)
    ∧ (∀ (st : MemState) (op : MemOp),
        st.g_memory_stats.peak_allocated ≤ (memStep st op).g_memory_stats.peak_allocated) :=
  ⟨fun psram ops => memRun_total_le_peak ops (memory_manager_init psram) (le_refl 0),
   memStep_peak_mono⟩

/-! ### Application Supervisor: boot sequencing

Two variants exist in the repository and both are cited by the spec:

* `src/webscreen_firmware/src/core/webscreen_main.cpp` (namespace `Fw`
  below): reports faults through the Fault Handler and drives
  `g_use_fallback` from storage/config/network/runtime failures.
* `src/webscreen/webscreen_main.cpp` (namespace `Sketch` below): the
  Arduino-sketch variant, which only prints debug messages (it makes no
  Fault Handler reports) and deliberately does not force fallback on a
  missing configuration file.

Collaborator outcomes (SD mount, config manager, WiFi, JS runtime,
fallback app) are oracle booleans; the embedded setup returns the
supervisor state, the fallback flag, the fault reports made (in order),
whether `js_runtime_init`/`webscreen_runtime_start_javascript` was ever
invoked, and whether the emergency-shutdown path was taken.
-/

/-- `webscreen_error_severity_t` from `error_handler.h`. -/
inductive webscreen_error_severity_t where
  | WEBSCREEN_ERROR_SEVERITY_INFO
  | WEBSCREEN_ERROR_SEVERITY_WARNING
  | WEBSCREEN_ERROR_SEVERITY_ERROR
  | WEBSCREEN_ERROR_SEVERITY_FATAL
deriving DecidableEq

export webscreen_error_severity_t (WEBSCREEN_ERROR_SEVERITY_INFO
  WEBSCREEN_ERROR_SEVERITY_WARNING WEBSCREEN_ERROR_SEVERITY_ERROR
  WEBSCREEN_ERROR_SEVERITY_FATAL)

/-- Error codes are the numeric values of `webscreen_error_code_t`. -/
abbrev webscreen_error_code_t : Type := Nat

def WEBSCREEN_ERROR_SD_INIT_FAILED : webscreen_error_code_t := 1
def WEBSCREEN_ERROR_DISPLAY_INIT_FAILED : webscreen_error_code_t := 3
def WEBSCREEN_ERROR_MEMORY_ALLOCATION_FAILED : webscreen_error_code_t := 4
def WEBSCREEN_ERROR_WIFI_CONNECT_FAILED : webscreen_error_code_t := 100
def WEBSCREEN_ERROR_WIFI_TIMEOUT : webscreen_error_code_t := 101
def WEBSCREEN_ERROR_CONFIG_FILE_NOT_FOUND : webscreen_error_code_t := 200
def WEBSCREEN_ERROR_CONFIG_PARSE_FAILED : webscreen_error_code_t := 201
def WEBSCREEN_ERROR_SCRIPT_FILE_NOT_FOUND : webscreen_error_code_t := 203
def WEBSCREEN_ERROR_JS_RUNTIME_FAILED : webscreen_error_code_t := 300
def WEBSCREEN_ERROR_UNKNOWN : webscreen_error_code_t := 999

/-- `webscreen_app_state_t` (identical in both variants). -/
inductive webscreen_app_state_t where
  | WEBSCREEN_STATE_INITIALIZING
  | WEBSCREEN_STATE_RUNNING_JS
  | WEBSCREEN_STATE_RUNNING_FALLBACK
  | WEBSCREEN_STATE_ERROR
  | WEBSCREEN_STATE_SHUTDOWN
deriving DecidableEq

export webscreen_app_state_t (WEBSCREEN_STATE_INITIALIZING WEBSCREEN_STATE_RUNNING_JS
  WEBSCREEN_STATE_RUNNING_FALLBACK WEBSCREEN_STATE_ERROR WEBSCREEN_STATE_SHUTDOWN)

namespace Fw

/-- Collaborator outcomes for one firmware boot. -/
structure BootEnv where
  error_handler_ok : Bool
  logger_ok : Bool
  memory_ok : Bool
  power_ok : Bool
  sd_ok : Bool
  display_ok : Bool
  config_init_ok : Bool
  config_load_ok : Bool
  /-- `config_manager_get_config() != NULL` -/
  config_present : Bool
  /-- `config->wifi.enabled` -/
  wifi_enabled : Bool
  wifi_init_ok : Bool
  wifi_connect_ok : Bool
  /-- `sd_manager_file_exists(config->script_file)` -/
  script_exists : Bool
  js_ok : Bool
  fallback_ok : Bool

/-- Boot-time observables of the firmware supervisor. -/
structure BootState where
  g_app_state : webscreen_app_state_t
  g_use_fallback : Bool
  /-- fault reports made so far, in order: (severity, code) -/
  reports : List (webscreen_error_severity_t × webscreen_error_code_t)
  /-- whether `js_runtime_init` was ever called -/
  jsAttempted : Bool
  /-- whether `emergency_shutdown` was taken -/
  emergency : Bool
deriving DecidableEq

/-- `WEBSCREEN_ERROR_REPORT(code, severity, ...)`; module/function/line and
the description string do not affect control flow and are not recorded. -/
def report (sev : webscreen_error_severity_t) (code : webscreen_error_code_t)
    (st : BootState) : BootState :=
  { st with reports := st.reports ++ [(sev, code)] }

/-- `initialize_core_systems` (error-handler, logger, memory manager). -/
def initialize_core_systems (st : BootState) (env : BootEnv) : Bool × BootState :=
  if env.error_handler_ok = false then (false, st)
  else if env.logger_ok = false then
    (false, report WEBSCREEN_ERROR_SEVERITY_FATAL WEBSCREEN_ERROR_UNKNOWN st)
  else if env.memory_ok = false then
    (false, report WEBSCREEN_ERROR_SEVERITY_FATAL WEBSCREEN_ERROR_MEMORY_ALLOCATION_FAILED st)
  else (true, st)

/-- `initialize_hardware` (power, SD, display); SD failure is a Warning
that flips the fallback flag but does not abort. -/
def initialize_hardware (st : BootState) (env : BootEnv) : Bool × BootState :=
  if env.power_ok = false then
    (false, report WEBSCREEN_ERROR_SEVERITY_ERROR WEBSCREEN_ERROR_UNKNOWN st)
  else
    let st1 :=
      if env.sd_ok = false then
        { report WEBSCREEN_ERROR_SEVERITY_WARNING WEBSCREEN_ERROR_SD_INIT_FAILED st with
          g_use_fallback := true }
      else st
    if env.display_ok = false then
      (false, report WEBSCREEN_ERROR_SEVERITY_FATAL WEBSCREEN_ERROR_DISPLAY_INIT_FAILED st1)
    else (true, st1)

/-- `load_configuration`: a failing `config_manager_init` reports
CONFIG_FILE_NOT_FOUND at Error severity; a failing `config_manager_load`
(the path taken when the file is absent or unparsable) reports
CONFIG_PARSE_FAILED at Warning severity; both force fallback. -/
def load_configuration (st : BootState) (env : BootEnv) : Bool × BootState :=
  if env.config_init_ok = false then
    (false, { report WEBSCREEN_ERROR_SEVERITY_ERROR WEBSCREEN_ERROR_CONFIG_FILE_NOT_FOUND st with
      g_use_fallback := true })
  else if env.config_load_ok = false then
    (false, { report WEBSCREEN_ERROR_SEVERITY_WARNING WEBSCREEN_ERROR_CONFIG_PARSE_FAILED st with
      g_use_fallback := true })
  else (true, st)

/-- `initialize_network`. -/
def initialize_network (st : BootState) (env : BootEnv) : Bool × BootState :=
  if (env.config_present && env.wifi_enabled) = false then
    (false, { st with g_use_fallback := true })
  else if env.wifi_init_ok = false then
    (false, { report WEBSCREEN_ERROR_SEVERITY_WARNING WEBSCREEN_ERROR_WIFI_CONNECT_FAILED st with
      g_use_fallback := true })
  else if env.wifi_connect_ok = false then
    (false, { report WEBSCREEN_ERROR_SEVERITY_WARNING WEBSCREEN_ERROR_WIFI_TIMEOUT st with
      g_use_fallback := true })
  else (true, st)

/-- The fallback branch of `start_runtime`. -/
def start_runtime_fb (st : BootState) (env : BootEnv) : Bool × BootState :=
  if env.fallback_ok = false then
    (false, report WEBSCREEN_ERROR_SEVERITY_FATAL WEBSCREEN_ERROR_UNKNOWN st)
  else (true, { st with g_app_state := WEBSCREEN_STATE_RUNNING_FALLBACK })

/-- `start_runtime`: the source's "recursively try fallback" recursion has
depth at most one because the recursive call happens right after
`g_use_fallback = true` is set, so it is unrolled into `start_runtime_fb`. -/
def start_runtime (st : BootState) (env : BootEnv) : Bool × BootState :=
  if st.g_use_fallback then start_runtime_fb st env
  else if (env.config_present && env.script_exists) = false then
    start_runtime_fb
      ({ report WEBSCREEN_ERROR_SEVERITY_WARNING WEBSCREEN_ERROR_SCRIPT_FILE_NOT_FOUND st with
        g_use_fallback := true }) env
  else
    let st1 := { st with jsAttempted := true }
    if env.js_ok then (true, { st1 with g_app_state := WEBSCREEN_STATE_RUNNING_JS })
    else
      start_runtime_fb
        ({ report WEBSCREEN_ERROR_SEVERITY_ERROR WEBSCREEN_ERROR_JS_RUNTIME_FAILED st1 with
          g_use_fallback := true }) env

/-- `emergency_shutdown` (observable effect only). -/
def emergency_shutdown (st : BootState) : BootState := { st with emergency := true }

/-- `webscreen_setup`: the return values of `load_configuration` and
`initialize_network` are discarded by the caller, exactly as in the
source. -/
def webscreen_setup (env : BootEnv) : BootState :=
  let st0 : BootState := ⟨WEBSCREEN_STATE_INITIALIZING, false, [], false, false⟩
  let r1 := initialize_core_systems st0 env
  if r1.1 = false then emergency_shutdown r1.2
  else
    let r2 := initialize_hardware r1.2 env
    if r2.1 = false then emergency_shutdown r2.2
    else
      let r3 := load_configuration r2.2 env
      let r4 := initialize_network r3.2 env
      let r5 := start_runtime r4.2 env
      if r5.1 = false then emergency_shutdown r5.2 else r5.2

end Fw

namespace Sketch

/-- Collaborator outcomes for one boot of the Arduino-sketch variant. -/
structure BootEnv where
  hardware_ok : Bool
  storage_ok : Bool
  /-- config file exists, opens and parses -/
  config_load_ok : Bool
  /-- `g_webscreen_config.wifi.enabled` (default true) -/
  wifi_enabled : Bool
  /-- SSID non-empty and `webscreen_network_init` succeeds -/
  network_ok : Bool
  /-- `SD_MMC.exists(g_webscreen_config.script_file)` -/
  script_exists : Bool
  js_ok : Bool
  fallback_ok : Bool

/-- Boot-time observables of the sketch supervisor (it reports no faults;
failures are only printed). -/
structure BootState where
  g_app_state : webscreen_app_state_t
  g_use_fallback : Bool
  jsAttempted : Bool
deriving DecidableEq

/-- `start_runtime` of the sketch variant. -/
def start_runtime (st : BootState) (env : BootEnv) : Bool × BootState :=
  if st.g_use_fallback then
    (env.fallback_ok, { st with g_app_state := WEBSCREEN_STATE_RUNNING_FALLBACK })
  else if env.script_exists = false then
    (env.fallback_ok,
      { st with g_use_fallback := true, g_app_state := WEBSCREEN_STATE_RUNNING_FALLBACK })
  else
    let st1 := { st with jsAttempted := true }
    if env.js_ok then (true, { st1 with g_app_state := WEBSCREEN_STATE_RUNNING_JS })
    else
      (env.fallback_ok,
        { st1 with g_use_fallback := true, g_app_state := WEBSCREEN_STATE_RUNNING_FALLBACK })

/-- `webscreen_setup` of the sketch variant: a failed configuration load
deliberately does not force fallback ("Don't force fallback just for
missing config"); the network result is only printed. -/
def webscreen_setup (env : BootEnv) : Bool × BootState :=
  let st0 : BootState := ⟨WEBSCREEN_STATE_INITIALIZING, false, false⟩
  if env.hardware_ok = false then (false, st0)
  else
    let st1 := if env.storage_ok = false then { st0 with g_use_fallback := true } else st0
    let r := start_runtime st1 env
    if r.1 = false then
      let st2 := { r.2 with g_use_fallback := true }
      (env.fallback_ok, st2)
    else (true, r.2)

end Sketch

/-- A firmware boot in which every collaborator succeeds except the
configuration-file load (the file is absent; storage is mounted and the
config manager initialises). -/
def c7env : Fw.BootEnv :=
  ⟨true, true, true, true, true, true, true, false, true, true, true, true, true, true, true⟩

/-- The same scenario for the sketch variant. -/
def c7envSketch : Sketch.BootEnv := ⟨true, true, false, true, true, true, true, true⟩

/-- C7 as stated fails on the code: with the config file absent (and
everything else healthy) the firmware supervisor does reach
RunningFallback without attempting the script engine, but the single
Warning it reports carries code CONFIG_PARSE_FAILED (201), not
CONFIG_FILE_NOT_FOUND (200); and the sketch variant does not even fall
back — it proceeds to RunningScript and starts the script engine. -/
theorem C7_counterexample :
    Fw.webscreen_setup c7env
      = ⟨WEBSCREEN_STATE_RUNNING_FALLBACK, true,
          [(WEBSCREEN_ERROR_SEVERITY_WARNING, WEBSCREEN_ERROR_CONFIG_PARSE_FAILED)],
          false, false⟩
    ∧ (WEBSCREEN_ERROR_SEVERITY_WARNING, WEBSCREEN_ERROR_CONFIG_FILE_NOT_FOUND)
        ∉ (Fw.webscreen_setup c7env).reports
    ∧ (Sketch.webscreen_setup c7envSketch).2
      = ⟨WEBSCREEN_STATE_RUNNING_JS, false, true⟩ := by
  refine ⟨by decide, by decide, by decide⟩

/-- C7 (amended): in the firmware supervisor, when the configuration file
is absent at boot (config-manager init succeeds, the load fails) and the
other subsystems are healthy, the supervisor reaches RunningFallback
without ever attempting script-engine startup, and exactly one
Warning-severity fault is reported — with code CONFIG_PARSE_FAILED
(CONFIG_FILE_NOT_FOUND is reported, at Error severity, only when
config-manager initialisation itself fails).  In the sketch variant a
missing configuration file does not force fallback: with the script file
present and the engine starting, the supervisor reaches RunningScript. -/
theorem C7_config_absent_boot :
    (∀ env : Fw.BootEnv,
      env.error_handler_ok = true → env.logger_ok = true → env.memory_ok = true →
      env.power_ok = true → env.sd_ok = true → env.display_ok = true →
      env.config_init_ok = true → env.config_load_ok = false →
      ((env.config_present && env.wifi_enabled) = false
        ∨ (env.wifi_init_ok = true ∧ env.wifi_connect_ok = true)) →
      env.fallback_ok = true →
      (Fw.webscreen_setup env).g_app_state = WEBSCREEN_STATE_RUNNING_FALLBACK
      ∧ (Fw.webscreen_setup env).jsAttempted = false
      ∧ (Fw.webscreen_setup env).reports
        = [(WEBSCREEN_ERROR_SEVERITY_WARNING, WEBSCREEN_ERROR_CONFIG_PARSE_FAILED)])
    ∧ (∀ env : Sketch.BootEnv,
      env.hardware_ok = true → env.storage_ok = true → env.config_load_ok = false →
      env.script_exists = true → env.js_ok = true →
      (Sketch.webscreen_setup env).2.g_app_state = WEBSCREEN_STATE_RUNNING_JS
      ∧ (Sketch.webscreen_setup env).2.g_use_fallback = false
      ∧ (Sketch.webscreen_setup env).2.jsAttempted = true) := by
  constructor
  · intro env h1 h2 h3 h4 h5 h6 h7 h8 hnet h9
    rcases hnet with hnet | ⟨hw1, hw2⟩
    · simp [Fw.webscreen_setup, Fw.initialize_core_systems, Fw.initialize_hardware,
        Fw.load_configuration, Fw.initialize_network, Fw.start_runtime, Fw.start_runtime_fb,
        Fw.emergency_shutdown, Fw.report, h1, h2, h3, h4, h5, h6, h7, h8, h9, hnet]
    · cases hpw : (env.config_present && env.wifi_enabled) with
      | false =>
        simp [Fw.webscreen_setup, Fw.initialize_core_systems, Fw.initialize_hardware,
          Fw.load_configuration, Fw.initialize_network, Fw.start_runtime, Fw.start_runtime_fb,
          Fw.emergency_shutdown, Fw.report, h1, h2, h3, h4, h5, h6, h7, h8, h9, hpw]
      | true =>
        simp [Fw.webscreen_setup, Fw.initialize_core_systems, Fw.initialize_hardware,
          Fw.load_configuration, Fw.initialize_network, Fw.start_runtime, Fw.start_runtime_fb,
          Fw.emergency_shutdown, Fw.report, h1, h2, h3, h4, h5, h6, h7, h8, h9, hpw, hw1, hw2]
  · intro env h1 h2 h3 h4 h5
    simp [Sketch.webscreen_setup, Sketch.start_runtime, h1, h2, h3, h4, h5]

/-- Witness for C7 (amended) at the concrete environments. -/
theorem C7_config_absent_boot_witness :
    ((Fw.webscreen_setup c7env).g_app_state = WEBSCREEN_STATE_RUNNING_FALLBACK
      ∧ (Fw.webscreen_setup c7env).jsAttempted = false
      ∧ (Fw.webscreen_setup c7env).reports
        = [(WEBSCREEN_ERROR_SEVERITY_WARNING, WEBSCREEN_ERROR_CONFIG_PARSE_FAILED)])
    ∧ ((Sketch.webscreen_setup c7envSketch).2.g_app_state = WEBSCREEN_STATE_RUNNING_JS
      ∧ (Sketch.webscreen_setup c7envSketch).2.g_use_fallback = false
      ∧ (Sketch.webscreen_setup c7envSketch).2.jsAttempted = true) :=
  ⟨C7_config_absent_boot.1 c7env rfl rfl rfl rfl rfl rfl rfl rfl
      (Or.inr ⟨rfl, rfl⟩) rfl,
   C7_config_absent_boot.2 c7envSketch rfl rfl rfl rfl rfl⟩

/-! ### System health and the Fault Handler

`src/webscreen/webscreen_main.cpp` lines 368-395 implement
`handle_system_health` for the sketch variant: every 30 seconds it
recomputes `g_system_healthy` from the heap usage ratio alone, and
`webscreen_is_healthy` (lines 150-152) just returns that flag.  The
`WEBSCREEN_MEMORY_WARNING_THRESHOLD` constant lives in the sketch's
`webscreen_main.h`, which is not among the sources, so the threshold is a
parameter here.  The C code compares single-precision floats; the
comparison is modelled with exact rationals, which agrees with the float
comparison at all inputs used below (the counterexample uses
`free_heap = total_heap`, where the computed usage is exactly 0).

The Fault Handler implementation (`webscreen_error_report`,
`webscreen_error_system_healthy`, `webscreen_error_clear_history`) is
declared in `src/webscreen_firmware/src/core/error_handler.h` but its
translation unit is not among the sources; it is modelled from the spec
below.
-/

namespace Sketch

/-- The sketch's health observables (`g_system_healthy`,
`g_last_health_check`; the statistics print timer only logs and is
omitted). -/
structure HealthState where
  g_system_healthy : Bool
  g_last_health_check : Nat
deriving DecidableEq

/-- `handle_system_health`: every 30 s, recompute `g_system_healthy` from
the memory-usage ratio alone.  `threshold` stands for
`WEBSCREEN_MEMORY_WARNING_THRESHOLD` (its defining header is not among
the sources); `free_heap`/`total_heap` are the `ESP` heap oracle values. -/
def handle_system_health (threshold : ℚ) (st : HealthState)
    (now free_heap total_heap : Nat) : HealthState :=
  if 30000 < ulSub (toUL now) st.g_last_health_check then
    { g_last_health_check := toUL now,
      g_system_healthy :=
        if threshold < 1 - (free_heap : ℚ) / (total_heap : ℚ) then false else true }
  else st

/-- `webscreen_is_healthy`. -/
def webscreen_is_healthy (st : HealthState) : Bool := st.g_system_healthy

end Sketch

/-- `webscreen_recovery_strategy_t` from `error_handler.h`. -/
inductive webscreen_recovery_strategy_t where
  | WEBSCREEN_RECOVERY_NONE
  | WEBSCREEN_RECOVERY_RETRY
  | WEBSCREEN_RECOVERY_FALLBACK
  | WEBSCREEN_RECOVERY_RESTART_MODULE
  | WEBSCREEN_RECOVERY_SYSTEM_RESTART
deriving DecidableEq

export webscreen_recovery_strategy_t (WEBSCREEN_RECOVERY_NONE WEBSCREEN_RECOVERY_RETRY
  WEBSCREEN_RECOVERY_FALLBACK WEBSCREEN_RECOVERY_RESTART_MODULE
  WEBSCREEN_RECOVERY_SYSTEM_RESTART)

/-- Position of a recovery strategy in the enum's increasing
disruptiveness order. -/
def recoveryLevel : webscreen_recovery_strategy_t → Nat
  | WEBSCREEN_RECOVERY_NONE => 0
  | WEBSCREEN_RECOVERY_RETRY => 1
  | WEBSCREEN_RECOVERY_FALLBACK => 2
  | WEBSCREEN_RECOVERY_RESTART_MODULE => 3
  | WEBSCREEN_RECOVERY_SYSTEM_RESTART => 4

/-- The more disruptive of two strategies. -/
def maxRecovery (a b : webscreen_recovery_strategy_t) : webscreen_recovery_strategy_t :=
  if recoveryLevel a ≤ recoveryLevel b then b else a

/-- One retained error record (`webscreen_error_t`): the origin and
description strings do not affect the handler's logic and are omitted. -/
structure webscreen_error_t where
  code : webscreen_error_code_t
  severity : webscreen_error_severity_t
  timestamp : Nat
deriving DecidableEq

/-- Modelled from the spec: the Fault Handler's retained state — the
record history (most recent first) and the cumulative counters
(`webscreen_error_get_count` / `webscreen_error_get_fatal_count`).  The
handler's translation unit is not among the sources. -/
structure ErrHandlerState where
  history : List webscreen_error_t
  total_count : Nat
  fatal_count : Nat
deriving DecidableEq

/-- `webscreen_error_handler_init`. -/
def webscreen_error_handler_init : ErrHandlerState := ⟨[], 0, 0⟩

/-- Modelled from the spec: number of retained reports of `code` whose
timestamp lies within the escalation window `W` ending at `t`. -/
def countRecent (history : List webscreen_error_t) (code : webscreen_error_code_t)
    (W t : Nat) : Nat :=
  (history.filter (fun e => e.code == code && decide (t ≤ e.timestamp + W))).length

/-- Modelled from the spec (§4.2): the default severity→recovery floor —
Info→None, Warning→Retry, Error→Retry for the retryable network category
(codes 100-199) and Fallback otherwise, Fatal→RestartSystem. -/
def defaultRecovery (code : webscreen_error_code_t) :
    webscreen_error_severity_t → webscreen_recovery_strategy_t
  | WEBSCREEN_ERROR_SEVERITY_INFO => WEBSCREEN_RECOVERY_NONE
  | WEBSCREEN_ERROR_SEVERITY_WARNING => WEBSCREEN_RECOVERY_RETRY
  | WEBSCREEN_ERROR_SEVERITY_ERROR =>
      if 100 ≤ code ∧ code ≤ 199 then WEBSCREEN_RECOVERY_RETRY
      else WEBSCREEN_RECOVERY_FALLBACK
  | WEBSCREEN_ERROR_SEVERITY_FATAL => WEBSCREEN_RECOVERY_SYSTEM_RESTART

/-- Modelled from the spec: `webscreen_error_report` appends the record,
bumps the counters, and returns the recovery strategy — the default floor,
escalated to at least RestartModule when the same Error-severity code has
occurred more than `N` times within the window `W` (escalation with
repetition, §4.2/§8). -/
def webscreen_error_report (N W : Nat) (st : ErrHandlerState)
    (code : webscreen_error_code_t) (sev : webscreen_error_severity_t) (t : Nat) :
    webscreen_recovery_strategy_t × ErrHandlerState :=
  let st1 : ErrHandlerState :=
    { history := ⟨code, sev, t⟩ :: st.history,
      total_count := st.total_count + 1,
      fatal_count :=
        st.fatal_count + (if sev = WEBSCREEN_ERROR_SEVERITY_FATAL then 1 else 0) }
  let base := defaultRecovery code sev
  let strat :=
    if sev = WEBSCREEN_ERROR_SEVERITY_ERROR ∧ N < countRecent st1.history code W t then
      maxRecovery base WEBSCREEN_RECOVERY_RESTART_MODULE
    else base
  (strat, st1)

/-- `webscreen_error_clear_history` ("Clear error history (use with
caution)"): the explicit health-counter reset. -/
def webscreen_error_clear_history (_ : ErrHandlerState) : ErrHandlerState := ⟨[], 0, 0⟩

/-- Modelled from the spec (§4.2): `webscreen_error_system_healthy` is
false once the fatal-error counter is nonzero or once the configurable
memory/CPU-health check (`memOk`, an oracle) fails. -/
def webscreen_error_system_healthy (st : ErrHandlerState) (memOk : Bool) : Bool :=
  (st.fatal_count == 0) && memOk

/-- One call into the Fault Handler's mutating interface. -/
inductive ErrOp where
  | report (code : webscreen_error_code_t) (sev : webscreen_error_severity_t) (t : Nat)
  | clear
deriving DecidableEq

/-- State effect of one Fault Handler call. -/
def errStep (N W : Nat) (st : ErrHandlerState) : ErrOp → ErrHandlerState
  | ErrOp.report code sev t => (webscreen_error_report N W st code sev t).2
  | ErrOp.clear => webscreen_error_clear_history st

/-- Run a sequence of Fault Handler calls. -/
def errRun (N W : Nat) (ops : List ErrOp) (st : ErrHandlerState) : ErrHandlerState :=
  ops.foldl (errStep N W) st

theorem errStep_fatal_persists (N W : Nat) (st : ErrHandlerState) (op : ErrOp)
    (hop : op ≠ ErrOp.clear) (h : 1 ≤ st.fatal_count) :
    1 ≤ (errStep N W st op).fatal_count := by
  cases op with
  | report code sev t =>
    show 1 ≤ st.fatal_count + _
    omega
  | clear => exact absurd rfl hop

theorem errRun_fatal_persists (N W : Nat) (ops : List ErrOp) :
    ∀ (st : ErrHandlerState), ErrOp.clear ∉ ops → 1 ≤ st.fatal_count →
      1 ≤ (errRun N W ops st).fatal_count := by
  induction ops with
  | nil => intro st _ h; exact h
  | cons op ops ih =>
    intro st hmem h
    have hop : op ≠ ErrOp.clear := fun hc => hmem (by rw [hc]; exact List.mem_cons_self _ _)
    have hrest : ErrOp.clear ∉ ops := fun hc => hmem (List.mem_cons_of_mem _ hc)
    exact ih (errStep N W st op) hrest (errStep_fatal_persists N W st op hop h)

/-- C8 as stated fails on the sketch variant's in-source health flag: with
`g_system_healthy` currently false (as it would be after any prior
degradation) and no intervening reset, a single periodic health check with
ample free heap (usage exactly 0, below any positive threshold — here the
representative configurable threshold 9/10) sets the flag back to true, so
`webscreen_is_healthy` does not remain false until an explicit reset; it
is recomputed from the memory check alone. -/
theorem C8_counterexample :
    Sketch.handle_system_health (9 / 10) ⟨false, 0⟩ 31000 100000 100000 = ⟨true, 31000⟩
    ∧ Sketch.webscreen_is_healthy
        (Sketch.handle_system_health (9 / 10) ⟨false, 0⟩ 31000 100000 100000) = true := by
  have h : Sketch.handle_system_health (9 / 10) ⟨false, 0⟩ 31000 100000 100000
      = ⟨true, 31000⟩ := by
    unfold Sketch.handle_system_health
    rw [if_pos (by decide), if_neg (by norm_num)]
    have ht : toUL 31000 = 31000 := by decide
    rw [ht]
  exact ⟨h, by rw [Sketch.webscreen_is_healthy, h]⟩

/-- C8 (amended): the Fault Handler predicate
`webscreen_error_system_healthy` (modelled from the spec — its translation
unit is not among the sources) is false immediately after any
Fatal-severity report regardless of the memory check, and remains false
across any further sequence of reports that contains no explicit
`webscreen_error_clear_history`; the sketch variant's in-source
`webscreen_is_healthy`, by contrast, is recomputed by each due periodic
check purely from the heap-usage ratio, independent of the previous flag
value and of any Fatal report. -/
theorem C8_fatal_health :
    (∀ (N W : Nat) (st : ErrHandlerState) (code : webscreen_error_code_t) (t : Nat)
        (memOk : Bool),
        webscreen_error_system_healthy
          (webscreen_error_report N W st code WEBSCREEN_ERROR_SEVERITY_FATAL t).2 memOk
          = false)
    ∧ (∀ (N W : Nat) (ops : List ErrOp) (st : ErrHandlerState) (memOk : Bool),
        1 ≤ st.fatal_count → ErrOp.clear ∉ ops →
        webscreen_error_system_healthy (errRun N W ops st) memOk = false)
    ∧ (∀ (threshold : ℚ) (st : Sketch.HealthState) (now free_heap total_heap : Nat),
        30000 < ulSub (toUL now) st.g_last_health_check →
        Sketch.webscreen_is_healthy
            (Sketch.handle_system_health threshold st now free_heap total_heap)
          = (if threshold < 1 - (free_heap : ℚ) / (total_heap : ℚ) then false else true)) := by
  refine ⟨?_, ?_, ?_⟩
  · intro N W st code t memOk
    simp [webscreen_error_system_healthy, webscreen_error_report]
  · intro N W ops st memOk h hmem
    have h1 := errRun_fatal_persists N W ops st hmem h
    unfold webscreen_error_system_healthy
    have hne : ((errRun N W ops st).fatal_count == 0) = false := by
      simp only [beq_eq_false_iff_ne, ne_eq]
      omega
    rw [hne, Bool.false_and]
  · intro threshold st now free_heap total_heap hdue
    unfold Sketch.webscreen_is_healthy Sketch.handle_system_health
    rw [if_pos hdue]

/-- Witness for C8 (amended) at concrete inputs. -/
theorem C8_fatal_health_witness :
    webscreen_error_system_healthy
      (webscreen_error_report 3 60000 webscreen_error_handler_init
        WEBSCREEN_ERROR_DISPLAY_INIT_FAILED WEBSCREEN_ERROR_SEVERITY_FATAL 100).2 true = false
    ∧ webscreen_error_system_healthy
        (errRun 3 60000 [ErrOp.report WEBSCREEN_ERROR_WIFI_TIMEOUT
          WEBSCREEN_ERROR_SEVERITY_WARNING 200] ⟨[], 1, 1⟩) true = false
    ∧ Sketch.webscreen_is_healthy
        (Sketch.handle_system_health (9 / 10) ⟨false, 0⟩ 31000 100000 100000)
      = (if (9 / 10 : ℚ) < 1 - (100000 : ℚ) / (100000 : ℚ) then false else true) :=
  ⟨C8_fatal_health.1 3 60000 webscreen_error_handler_init
      WEBSCREEN_ERROR_DISPLAY_INIT_FAILED 100 true,
   C8_fatal_health.2.1 3 60000 [ErrOp.report WEBSCREEN_ERROR_WIFI_TIMEOUT
      WEBSCREEN_ERROR_SEVERITY_WARNING 200] ⟨[], 1, 1⟩ true (by decide) (by decide),
   C8_fatal_health.2.2 (9 / 10) ⟨false, 0⟩ 31000 100000 100000 (by decide)⟩

theorem maxRecovery_right_le (a b : webscreen_recovery_strategy_t) :
    recoveryLevel b ≤ recoveryLevel (maxRecovery a b) := by
  unfold maxRecovery
  by_cases h : recoveryLevel a ≤ recoveryLevel b
  · rw [if_pos h]
  · rw [if_neg h]
    omega

/-- C9: reporting an Error-severity code whose occurrence count within the
escalation window (including this report) exceeds `N` yields a recovery
strategy at least as disruptive as RestartModule
(escalation-with-repetition).  The Fault Handler implementation is
modelled from the spec, its translation unit not being among the
sources. -/
theorem C9_escalation (N W : Nat) (st : ErrHandlerState) (code : webscreen_error_code_t)
    (t : Nat)
    (hcount : N < countRecent
      ((⟨code, WEBSCREEN_ERROR_SEVERITY_ERROR, t⟩ : webscreen_error_t) :: st.history)
      code W t) :
    recoveryLevel WEBSCREEN_RECOVERY_RESTART_MODULE
      ≤ recoveryLevel
          (webscreen_error_report N W st code WEBSCREEN_ERROR_SEVERITY_ERROR t).1 := by
  unfold webscreen_error_report
  simp only
  rw [if_pos ⟨trivial, hcount⟩]
  exact maxRecovery_right_le _ _

/-- Three earlier reports of the runtime-failure code within the window. -/
def c9state : ErrHandlerState :=
  ⟨[⟨300, WEBSCREEN_ERROR_SEVERITY_ERROR, 3000⟩,
    ⟨300, WEBSCREEN_ERROR_SEVERITY_ERROR, 2000⟩,
    ⟨300, WEBSCREEN_ERROR_SEVERITY_ERROR, 1000⟩], 3, 0⟩

/-- Witness for C9: the fourth report of code 300 within a 60 s window
(count 4 > N = 3) escalates to at least RestartModule. -/
theorem C9_escalation_witness :
    recoveryLevel WEBSCREEN_RECOVERY_RESTART_MODULE
      ≤ recoveryLevel
          (webscreen_error_report 3 60000 c9state 300 WEBSCREEN_ERROR_SEVERITY_ERROR 4000).1 :=
  C9_escalation 3 60000 c9state 300 4000 (by decide)

end WebScreen
